import Mathlib

/-!
# Keyboard model of the SDDM greeter

A shallow embedding of `src/greeter/KeyboardModel.cpp`: the indicator and
layout model kept by the greeter, its initialisation against the XKB
extension of the X server, and the setters that push one combined
latch/lock request per change.  From `src/greeter/GreeterApp.cpp` it takes
the two places that use the model or decide on the Qt version: the Num Lock
block of the constructor and the function `qtVersion` with its two tests.

Conventions of the embedding

* `QString` is `String`; the regular expression engine works on the list of
  characters of the text.
* `uint8_t` values (`Indicator.mask`, the `lockedMods` and `group` bytes of a
  state reply) are natural numbers.  Only `|` and `&` are applied to them and
  neither can leave the byte range, so no reduction modulo `2^8` is written.
  The narrowing of the `int` loop counter handed to
  `getIndicatorMask(uint8_t)` is written `% 256`.
* `int` values (`layout_id`) are integers.  Where `layout_id` is handed to the
  `uint8_t` parameter `groupLock` of `xcb_xkb_latch_lock_state` it is reduced
  modulo `2^8` (`toUInt8`).
* The X server is a record of replies (`XkbService`): every request of the
  initialisation is answered by the corresponding field, `none` standing for
  an error reply.  The reply to a latch/lock request is an argument of the
  setter that sends it.
* `xcb_connect` always returns a handle, never a null pointer.  When the
  connection could not be made the handle is in the error state and no
  request is answered on it: every reply pointer and every error pointer
  comes back null (`XkbService.xcb_connect`).
* Signals emitted and requests sent by a setter are returned as a list of
  `Event`s, in program order.
-/

set_option linter.dupNamespace false
set_option linter.unusedVariables false

namespace SDDM

/-! ## Data model -/

/-- The class `Layout`: a short and a long name, both constant. -/
structure Layout where
  m_short : String
  m_long : String
  deriving DecidableEq, Repr

/-- Accessor `Layout::shortName`. -/
def Layout.shortName (l : Layout) : String := l.m_short

/-- Accessor `Layout::longName`. -/
def Layout.longName (l : Layout) : String := l.m_long

/-- The struct `Indicator`, with its default member initialisers. -/
structure Indicator where
  enabled : Bool := false
  mask : Nat := 0
  deriving DecidableEq, Repr

/-- The class `KeyboardModelPrivate`, with its default member initialisers.
`conn` records whether the connection handle is non-null. -/
structure KeyboardModelPrivate where
  enabled : Bool := true
  numlock : Indicator := {}
  capslock : Indicator := {}
  layout_id : Int := 0
  layouts : List Layout := []
  conn : Bool := false
  deriving DecidableEq, Repr

/-- The class `KeyboardModel`: a handle on its private part `d`. -/
structure KeyboardModel where
  d : KeyboardModelPrivate
  deriving DecidableEq, Repr

/-- What a setter does besides changing fields: the latch/lock request it
sends, the warning it logs, the signals it emits.  The request is recorded
with the eight values that the parameters of `xcb_xkb_latch_lock_state` after
the connection receive; `groupLock`, like the two masks, is a byte. -/
inductive Event where
  | latchLockState (deviceSpec affectModLocks modLocks lockGroup groupLock
      affectModLatches latchGroup groupLatch : Nat)
  | warning (code : Nat)
  | numLockStateChanged
  | capsLockStateChanged
  | currentLayoutChanged
  deriving DecidableEq, Repr

/-- The constant `XCB_XKB_ID_USE_CORE_KBD` of the XKB protocol. -/
def XCB_XKB_ID_USE_CORE_KBD : Nat := 256

/-- Recogniser of the latch/lock request among the events. -/
def Event.isCommand : Event → Bool
  | .latchLockState .. => true
  | _ => false

/-- Recogniser of the change signals among the events. -/
def Event.isNotification : Event → Bool
  | .numLockStateChanged => true
  | .capsLockStateChanged => true
  | .currentLayoutChanged => true
  | _ => false

/-! ## The X server seen from the model -/

/-- Reply to `xcb_xkb_get_names` asked for group names and symbols: the value
list starts with the symbols atom and continues with one atom per group. -/
structure GetNamesReply where
  symbolsName : Nat
  groups : List Nat
  deriving DecidableEq, Repr

/-- The bytes of the reply to `xcb_xkb_get_state` that the model reads. -/
structure GetStateReply where
  lockedMods : Nat
  group : Nat
  deriving DecidableEq, Repr

/-- Outcome of `xcb_connect` and replies of the X server to the requests of
the initialisation.  In a reply field `none` is an error reply: a null reply
pointer with the error set.  The reply fields are the answers given on a
usable connection; on a handle in the error state the constructor does not
get past `initLedMap`, the first initialiser that reads a reply. -/
structure XkbService where
  /-- The handle that `xcb_connect` returned is usable.  The call always
  returns a handle; `false` is a handle in the error state, on which no
  request is answered: the reply pointer and the error pointer are both
  null. -/
  xcb_connect : Bool
  /-- Error code of `xcb_xkb_use_extension_reply`, `none` when it succeeds. -/
  use_extension_error : Option Nat
  /-- Indicator name atoms, in the order of the value list. -/
  indicator_names : Option (List Nat)
  /-- Name of an atom (`xcb_get_atom_name`). -/
  atom_name : Nat → Option String
  /-- The `mods` byte of the indicator map asked for with the bit set `which`. -/
  indicator_map : Nat → Option Nat
  /-- Group name atoms and symbols atom. -/
  group_names : Option GetNamesReply
  /-- Keyboard state. -/
  get_state : Option GetStateReply

/-! ## Read accessors -/

/-- Accessor `KeyboardModel::numLockState`. -/
def KeyboardModel.numLockState (m : KeyboardModel) : Bool := m.d.numlock.enabled

/-- Accessor `KeyboardModel::capsLockState`. -/
def KeyboardModel.capsLockState (m : KeyboardModel) : Bool := m.d.capslock.enabled

/-- Accessor `KeyboardModel::layouts`. -/
def KeyboardModel.layouts (m : KeyboardModel) : List Layout := m.d.layouts

/-- Accessor `KeyboardModel::currentLayout`. -/
def KeyboardModel.currentLayout (m : KeyboardModel) : Int := m.d.layout_id

/-- Accessor `KeyboardModel::enabled`. -/
def KeyboardModel.enabled (m : KeyboardModel) : Bool := m.d.enabled

/-! ## State mutator -/

/-- Conversion of an `int` to `uint8_t`: the value modulo `2^8`, so 300
becomes 44 and -1 becomes 255. -/
def toUInt8 (x : Int) : Nat := (x % 256).toNat

/-- The method `KeyboardModelPrivate::updateState`: compute both masks from
the fields, send one latch/lock request, log a warning when
`xcb_request_check` returns an error (`error`).  No field is written.  The
`int` `layout_id` is the argument for the `uint8_t` parameter `groupLock`. -/
def KeyboardModelPrivate.updateState (d : KeyboardModelPrivate) (error : Option Nat) :
    List Event :=
  let mask_full := d.numlock.mask ||| d.capslock.mask
  let mask_cur := (if d.numlock.enabled then d.numlock.mask else 0) |||
                  (if d.capslock.enabled then d.capslock.mask else 0)
  Event.latchLockState XCB_XKB_ID_USE_CORE_KBD mask_full mask_cur 1 (toUInt8 d.layout_id)
      0 0 0 ::
    (match error with
     | some code => [Event.warning code]
     | none => [])

/-- The method `KeyboardModel::setNumLockState`. -/
def KeyboardModel.setNumLockState (m : KeyboardModel) (state : Bool) (error : Option Nat) :
    KeyboardModel × List Event :=
  if m.d.numlock.enabled != state then
    let d : KeyboardModelPrivate := { m.d with numlock := { m.d.numlock with enabled := state } }
    ({ d := d }, d.updateState error ++ [Event.numLockStateChanged])
  else
    (m, [])

/-- The method `KeyboardModel::setCapsLockState`. -/
def KeyboardModel.setCapsLockState (m : KeyboardModel) (state : Bool) (error : Option Nat) :
    KeyboardModel × List Event :=
  if m.d.capslock.enabled != state then
    let d : KeyboardModelPrivate := { m.d with capslock := { m.d.capslock with enabled := state } }
    ({ d := d }, d.updateState error ++ [Event.capsLockStateChanged])
  else
    (m, [])

/-- The method `KeyboardModel::setCurrentLayout`. -/
def KeyboardModel.setCurrentLayout (m : KeyboardModel) (id : Int) (error : Option Nat) :
    KeyboardModel × List Event :=
  if m.d.layout_id != id then
    let d : KeyboardModelPrivate := { m.d with layout_id := id }
    ({ d := d }, d.updateState error ++ [Event.currentLayoutChanged])
  else
    (m, [])

/-! ## Name resolution and short names -/

/-- The method `KeyboardModelPrivate::atomName`: the name of the atom, or the
empty string (with a logged warning) when the request fails. -/
def KeyboardModelPrivate.atomName (svc : XkbService) (atom : Nat) : String :=
  match svc.atom_name atom with
  | some name => name
  | none => ""

/-- The character class `[a-z]` of a case-insensitive `QRegExp`: the ASCII
letters of both cases. -/
def reLetter (c : Char) : Bool :=
  (decide (97 ≤ c.toNat) && decide (c.toNat ≤ 122)) ||
  (decide (65 ≤ c.toNat) && decide (c.toNat ≤ 90))

/-- The expression `\+([a-z]+)` matched at the head of `s`: a plus sign and
the longest non-empty run of letters after it (the quantifier is greedy and
nothing follows it).  Returns the text captured by the group. -/
def reMatchHere : List Char → Option (List Char)
  | [] => none
  | c :: rest =>
    if c = '+' then
      let run := rest.takeWhile reLetter
      if run.isEmpty then none else some run
    else none

/-- Leftmost match in `s`, whose first character has offset `pos` in the
text: offset of the match and captured text. -/
def reSearch : List Char → Nat → Option (Nat × List Char)
  | [], _ => none
  | c :: rest, pos =>
    match reMatchHere (c :: rest) with
    | some cap => some (pos, cap)
    | none => reSearch rest (pos + 1)

/-- The call `re.indexIn(text, pos)`: offset of the first match at or after
`pos` together with `re.cap(1)`; `none` is the result `-1`.  The matched
length is one more than the length of the captured text. -/
def indexIn (text : List Char) (pos : Nat) : Option (Nat × List Char) :=
  reSearch (text.drop pos) pos

/-- The set `blackList` of `parseShortNames`. -/
def blackList : List String := ["inet", "group"]

/-- The `while` loop of `parseShortNames`, started at offset `pos` with the
tokens `res` collected so far.  `fuel` bounds the number of iterations;
`none` is returned when it runs out. -/
def parseShortNamesLoop (text : List Char) : Nat → Nat → List String → Option (List String)
  | 0, _, _ => none
  | fuel + 1, pos, res =>
    match indexIn text pos with
    | none => some res
    | some (p, cap) =>
      let res := if blackList.contains (String.mk cap) then res else res ++ [String.mk cap]
      parseShortNamesLoop text fuel (p + (1 + cap.length)) res

/-- The method `KeyboardModelPrivate::parseShortNames`.  Every iteration
moves `pos` forward by at least two characters, so `text.length + 1`
iterations are enough (`parseShortNamesLoop_isSome`). -/
def KeyboardModelPrivate.parseShortNames (text : String) : List String :=
  (parseShortNamesLoop text.toList (text.length + 1) 0 []).getD []

/-! ## Initialisation -/

/-- The method `KeyboardModelPrivate::connect`: open the connection, then
negotiate the extension; a null handle or an error from the handshake clears
`enabled` and returns.  The handle `xcb_connect` returns is never null, and
on a handle in the error state the handshake leaves the error pointer
null. -/
def KeyboardModelPrivate.connect (d : KeyboardModelPrivate) (svc : XkbService) :
    KeyboardModelPrivate :=
  let d := { d with conn := true }
  if d.conn = false then
    { d with enabled := false }
  else
    let error := if svc.xcb_connect then svc.use_extension_error else none
    match error with
    | some _ => { d with enabled := false }
    | none => d

/-- The method `KeyboardModelPrivate::getIndicatorMask`: ask for the map of
the indicator whose bit is `1 << i` and return its `mods` byte, or `0` (with
a logged warning) when the request fails.  The argument is a `uint8_t`.  The
shift is defined for counts below 32 only, the number of indicator slots of
the protocol. -/
def KeyboardModelPrivate.getIndicatorMask (svc : XkbService) (i : Nat) : Nat :=
  match svc.indicator_map (1 <<< (i % 256)) with
  | some mods => mods
  | none => 0

/-- The `for` loop of `initLedMap` from counter `i` on, `indicators` being
the atoms not visited yet. -/
def initLedMapLoop (svc : XkbService) :
    List Nat → Nat → KeyboardModelPrivate → KeyboardModelPrivate
  | [], _, d => d
  | atom :: indicators, i, d =>
    let name := KeyboardModelPrivate.atomName svc atom
    let d : KeyboardModelPrivate :=
      if name = "Num Lock" then
        { d with numlock := { d.numlock with mask := KeyboardModelPrivate.getIndicatorMask svc i } }
      else if name = "Caps Lock" then
        { d with capslock := { d.capslock with mask := KeyboardModelPrivate.getIndicatorMask svc i } }
      else d
    initLedMapLoop svc indicators (i + 1) d

/-- The method `KeyboardModelPrivate::initLedMap`: an error reply to the
indicator name request clears `enabled`; otherwise every indicator name is
resolved and compared with the two labels.  On a handle in the error state
the reply and the error are both null, the test `if (error)` fails and the
null reply is read: that is undefined, the result `none`. -/
def KeyboardModelPrivate.initLedMap (d : KeyboardModelPrivate) (svc : XkbService) :
    Option KeyboardModelPrivate :=
  if svc.xcb_connect = false then none
  else
    match svc.indicator_names with
    | none => some { d with enabled := false }
    | some indicators => some (initLedMapLoop svc indicators 0 d)

/-- The method `KeyboardModelPrivate::initLayouts`.  The reply is fetched
with a null error pointer, so the local `error` stays null and the test
`if (error)` never succeeds: the value list of the reply is read whatever
the reply is.  Reading a null reply is undefined; it is the result `none`.
With a reply, `ptr[0]` is the symbols atom and `ptr[i + 1]` the atom of
group `i`. -/
def KeyboardModelPrivate.initLayouts (d : KeyboardModelPrivate) (svc : XkbService) :
    Option KeyboardModelPrivate :=
  match svc.group_names with
  | none => none
  | some reply =>
    let cnt := reply.groups.length
    let ptr := reply.symbolsName :: reply.groups
    let short_names :=
      KeyboardModelPrivate.parseShortNames (KeyboardModelPrivate.atomName svc (ptr.getD 0 0))
    let layouts := (List.range cnt).map fun i =>
      let nlong := KeyboardModelPrivate.atomName svc (ptr.getD (i + 1) 0)
      let nshort := if i < short_names.length then short_names.getD i "" else ""
      Layout.mk nshort nlong
    some { d with layouts := layouts }

/-- The method `KeyboardModelPrivate::initState`: with a reply, both lock
flags are the conversion to `bool` of the locked modifiers masked by the
indicator mask (true when non-zero) and the layout is the reported group;
without one, `enabled` is cleared. -/
def KeyboardModelPrivate.initState (d : KeyboardModelPrivate) (svc : XkbService) :
    KeyboardModelPrivate :=
  match svc.get_state with
  | some reply =>
    let d := { d with capslock := { d.capslock with enabled := (reply.lockedMods &&& d.capslock.mask) != 0 } }
    let d := { d with numlock := { d.numlock with enabled := (reply.lockedMods &&& d.numlock.mask) != 0 } }
    { d with layout_id := (reply.group : Int) }
  | none => { d with enabled := false }

/-- The private initialisers, in the order the constructor calls them. -/
inductive InitStep where
  | connect
  | initLedMap
  | initLayouts
  | initState
  deriving DecidableEq, Repr

/-- The constructor `KeyboardModelPrivate::KeyboardModelPrivate`: `connect`,
then each further initialiser if `enabled` still holds when its turn comes.
The second component lists the initialisers that were called.  The result
is `none` when `initLedMap` or `initLayouts` reads a null reply. -/
def KeyboardModelPrivate.KeyboardModelPrivate (svc : XkbService) :
    Option (SDDM.KeyboardModelPrivate × List InitStep) :=
  let d : SDDM.KeyboardModelPrivate := {}
  let d := d.connect svc
  let steps := [InitStep.connect]
  let r₁ : Option (SDDM.KeyboardModelPrivate × List InitStep) :=
    if d.enabled then
      match d.initLedMap svc with
      | some d => some (d, steps ++ [InitStep.initLedMap])
      | none => none
    else some (d, steps)
  match r₁ with
  | none => none
  | some (d, steps) =>
    let r₂ : Option (SDDM.KeyboardModelPrivate × List InitStep) :=
      if d.enabled then
        match d.initLayouts svc with
        | some d => some (d, steps ++ [InitStep.initLayouts])
        | none => none
      else some (d, steps)
    match r₂ with
    | none => none
    | some (d, steps) =>
      if d.enabled then some (d.initState svc, steps ++ [InitStep.initState])
      else some (d, steps)

/-- The constructor `KeyboardModel::KeyboardModel`. -/
def KeyboardModel.KeyboardModel (svc : XkbService) : Option SDDM.KeyboardModel :=
  match KeyboardModelPrivate.KeyboardModelPrivate svc with
  | some (d, _) => some { d := d }
  | none => none

/-! ## Sample inputs -/

/-- A server on which every request of the initialisation succeeds: two
indicators, "Caps Lock" in slot 0 with modifier mask `0x02` and "Num Lock"
in slot 1 with mask `0x01`; three groups and the symbols string
`pc+us+inet(evdev)+ru:2`; both locks on and group 1 active. -/
def sampleService : XkbService where
  xcb_connect := true
  use_extension_error := none
  indicator_names := some [10, 11]
  atom_name := fun a =>
    if a = 10 then some "Caps Lock"
    else if a = 11 then some "Num Lock"
    else if a = 20 then some "pc+us+inet(evdev)+ru:2"
    else if a = 21 then some "English (US)"
    else if a = 22 then some "Russian"
    else if a = 23 then some "German"
    else none
  indicator_map := fun which =>
    if which = 1 then some 2 else if which = 2 then some 1 else none
  group_names := some { symbolsName := 20, groups := [21, 22, 23] }
  get_state := some { lockedMods := 3, group := 1 }

/-- The sample server refusing the extension handshake with error code 1. -/
def handshakeFailure : XkbService := { sampleService with use_extension_error := some 1 }

/-- The sample server when it cannot be reached: `xcb_connect` returns a
handle in the error state. -/
def connectFailure : XkbService := { sampleService with xcb_connect := false }

/-- The private part left by the constructor after a refused handshake. -/
def disabledPrivate : KeyboardModelPrivate := { enabled := false, conn := true }

/-- An enabled model with both locks off, masks `0x01` and `0x02`, group 0. -/
def sampleModel : KeyboardModel :=
  { d := { numlock := { mask := 1 }, capslock := { mask := 2 }, conn := true } }

/-! ## Vocabulary of the short-name statements -/

/-- `tok` is a token of `text` at offset `p`: the character at `p` is a plus
sign, the characters after it spell `tok`, which is a non-empty run of
letters, and the run cannot be extended: the text ends after it or goes on
with a character that is not a letter. -/
def TokenAt (text : List Char) (p : Nat) (tok : List Char) : Prop :=
  tok ≠ [] ∧ (∀ c ∈ tok, reLetter c = true) ∧ text[p]? = some '+' ∧
  (text.drop (p + 1)).take tok.length = tok ∧
  ∀ c, text[p + 1 + tok.length]? = some c → reLetter c = false

/-- Equality of two strings up to the case of ASCII letters. -/
def equalsIgnoreCase (a b : String) : Bool :=
  a.toList.map Char.toLower = b.toList.map Char.toLower

/-! ## The private layout setter and sequences of setter calls -/

/-- The method `KeyboardModelPrivate::setLayout`: its body is empty.  No
method of the class calls it. -/
def KeyboardModelPrivate.setLayout (d : SDDM.KeyboardModelPrivate) (id : Int) :
    SDDM.KeyboardModelPrivate :=
  d

/-- One call of a public setter, with the reply the server gives to the
latch/lock request in case the setter sends one. -/
inductive SetterCall where
  | setNumLockState (state : Bool) (error : Option Nat)
  | setCapsLockState (state : Bool) (error : Option Nat)
  | setCurrentLayout (id : Int) (error : Option Nat)
  deriving DecidableEq, Repr

/-- The model and the events after one setter call. -/
def KeyboardModel.call (m : SDDM.KeyboardModel) :
    SetterCall → SDDM.KeyboardModel × List Event
  | .setNumLockState state error => m.setNumLockState state error
  | .setCapsLockState state error => m.setCapsLockState state error
  | .setCurrentLayout id error => m.setCurrentLayout id error

/-- The model after a sequence of setter calls made one after the other, and
the events of all of them in order. -/
def KeyboardModel.callAll (m : SDDM.KeyboardModel) :
    List SetterCall → SDDM.KeyboardModel × List Event
  | [] => (m, [])
  | c :: cs => ((m.call c).1.callAll cs |>.1, (m.call c).2 ++ ((m.call c).1.callAll cs).2)

/-! ## The greeter: Num Lock upon start -/

/-- The enumeration `Configuration::NumState`. -/
inductive Configuration.NumState where
  | NUM_NONE
  | NUM_SET_ON
  | NUM_SET_OFF
  deriving DecidableEq, Repr

/-- Outcome of the start-up block: the keyboard model, the events of the
setter, and the arguments of the calls of `setNumLockState` that were made. -/
structure StartResult where
  keyboard : KeyboardModel
  events : List Event
  calls : List Bool
  deriving DecidableEq, Repr

/-- The block "Set numlock upon start" of the constructor
`GreeterApp::GreeterApp`, `numlock` being the value of
`m_configuration->numlock()`. -/
def GreeterApp.setNumlockUponStart (m_keyboard : KeyboardModel)
    (numlock : Configuration.NumState) (error : Option Nat) : StartResult :=
  if m_keyboard.enabled then
    if numlock = Configuration.NumState.NUM_SET_ON then
      { keyboard := (m_keyboard.setNumLockState true error).1,
        events := (m_keyboard.setNumLockState true error).2,
        calls := [true] }
    else if numlock = Configuration.NumState.NUM_SET_OFF then
      { keyboard := (m_keyboard.setNumLockState false error).1,
        events := (m_keyboard.setNumLockState false error).2,
        calls := [false] }
    else
      { keyboard := m_keyboard, events := [], calls := [] }
  else
    { keyboard := m_keyboard, events := [], calls := [] }

/-! ## The greeter: Qt version -/

/-- The call `QString::split(sep)` on the characters of a string: the parts
between the separators, empty parts kept. -/
def QString_split (sep : Char) : List Char → List (List Char)
  | [] => [[]]
  | c :: cs =>
    if c = sep then [] :: QString_split sep cs
    else
      match QString_split sep cs with
      | [] => [[c]]
      | part :: parts => (c :: part) :: parts

/-- The shift `x << n` on `int`: the product with `2^n` reduced to 32 bits,
two's complement. -/
def shl32 (x : Int) (n : Nat) : Int :=
  Int.bmod (x * 2 ^ n) (2 ^ 32)

/-- The function `qtVersion`.  `toInt` stands for `QString::toInt`, `none`
being a failed conversion, whose value is `0`; `qVersion` is the string
`qVersion()` returns.  The operator between the three terms is the logical
`||`, whose `bool` result converts to the `int` `1` or `0`.  The second
component tells whether the parse error message is logged. -/
def qtVersion (toInt : String → Option Int) (qVersion : String) : Int × Bool :=
  let list := (QString_split '.' qVersion.toList).map String.mk
  if list.length ≥ 3 then
    let major := (toInt (list.getD 0 "")).getD 0
    let errors := false || !(toInt (list.getD 0 "")).isSome
    let minor := (toInt (list.getD 1 "")).getD 0
    let errors := errors || !(toInt (list.getD 1 "")).isSome
    let patch := (toInt (list.getD 2 "")).getD 0
    let errors := errors || !(toInt (list.getD 2 "")).isSome
    let version : Int :=
      if (shl32 major 16 != 0 || shl32 minor 8 != 0 || patch != 0) then 1 else 0
    (version, errors)
  else
    (0, true)

/-- Modelled from the spec: the Qt macro `QT_VERSION_CHECK`, which is not in
the sources; it packs the three numbers into one, and
`QT_VERSION_CHECK(5, 1, 0)` is `0x050100`. -/
def QT_VERSION_CHECK (major minor patch : Nat) : Int :=
  ((major <<< 16 ||| minor <<< 8 ||| patch : Nat) : Int)

/-- The packed number `(major << 16) | (minor << 8) | patch` of the three
parsed numbers. -/
def packedVersion (major minor patch : Int) : Int :=
  Int.lor (Int.lor (shl32 major 16) (shl32 minor 8)) patch

/-- The test `qtVersion() >= QT_VERSION_CHECK(5, 1, 0)` that guards the cursor
override in `GreeterApp::GreeterApp` and the width change in
`GreeterApp::show`. -/
def qtVersionAtLeast51 (toInt : String → Option Int) (qVersion : String) : Bool :=
  decide ((qtVersion toInt qVersion).1 ≥ QT_VERSION_CHECK 5 1 0)

/-- The width `GreeterApp::show` gives the view for a screen of width
`width`. -/
def GreeterApp.showWidth (toInt : String → Option Int) (qVersion : String) (width : Int) :
    Int :=
  if qtVersionAtLeast51 toInt qVersion then width + 1 else width

/-! ## Sample inputs for the greeter and for failed initialisations -/

/-- A conversion of unsigned decimal numerals in the range of `int`. -/
def decimalToInt (s : String) : Option Int :=
  if s.toList.isEmpty || !s.toList.all Char.isDigit then none
  else
    let n : Nat := s.toList.foldl (fun acc c => acc * 10 + (c.toNat - 48)) 0
    if n < 2 ^ 31 then some (n : Int) else none

/-- The sample server answering the state request with an error. -/
def snapshotFailure : XkbService := { sampleService with get_state := none }

/-- The sample server answering the group name request with an error. -/
def groupNamesFailure : XkbService := { sampleService with group_names := none }

/-- The sample server answering the indicator name request with an error. -/
def indicatorNamesFailure : XkbService := { sampleService with indicator_names := none }

/-! ## Setters: shared facts -/

theorem updateState_commands (d : KeyboardModelPrivate) (error : Option Nat) :
    (d.updateState error).filter Event.isCommand =
      [Event.latchLockState XCB_XKB_ID_USE_CORE_KBD (d.numlock.mask ||| d.capslock.mask)
        ((if d.numlock.enabled then d.numlock.mask else 0) |||
         (if d.capslock.enabled then d.capslock.mask else 0)) 1 (toUInt8 d.layout_id)
        0 0 0] := by
  cases error <;> simp [KeyboardModelPrivate.updateState, Event.isCommand]

theorem toUInt8_of_byte (x : Int) (h0 : 0 ≤ x) (h1 : x < 256) : (toUInt8 x : Int) = x := by
  unfold toUInt8
  omega

theorem updateState_notifications (d : KeyboardModelPrivate) (error : Option Nat) :
    (d.updateState error).filter Event.isNotification = [] := by
  cases error <;> simp [KeyboardModelPrivate.updateState, Event.isNotification]

theorem setNumLockState_same (m : KeyboardModel) (v : Bool) (error : Option Nat)
    (h : v = m.numLockState) : m.setNumLockState v error = (m, []) := by
  subst h
  simp [KeyboardModel.setNumLockState, KeyboardModel.numLockState]

theorem setCapsLockState_same (m : KeyboardModel) (v : Bool) (error : Option Nat)
    (h : v = m.capsLockState) : m.setCapsLockState v error = (m, []) := by
  subst h
  simp [KeyboardModel.setCapsLockState, KeyboardModel.capsLockState]

theorem setCurrentLayout_same (m : KeyboardModel) (id : Int) (error : Option Nat)
    (h : id = m.currentLayout) : m.setCurrentLayout id error = (m, []) := by
  subst h
  simp [KeyboardModel.setCurrentLayout, KeyboardModel.currentLayout]

theorem setNumLockState_changed (m : KeyboardModel) (v : Bool) (error : Option Nat)
    (h : v ≠ m.numLockState) :
    m.setNumLockState v error =
      ({ d := { m.d with numlock := { m.d.numlock with enabled := v } } },
       ({ m.d with numlock := { m.d.numlock with enabled := v } } :
          KeyboardModelPrivate).updateState error ++ [Event.numLockStateChanged]) := by
  have h' : (m.d.numlock.enabled != v) = true := by
    simp only [KeyboardModel.numLockState] at h
    simpa [bne_iff_ne] using fun e => h e.symm
  simp [KeyboardModel.setNumLockState, h']

theorem setCapsLockState_changed (m : KeyboardModel) (v : Bool) (error : Option Nat)
    (h : v ≠ m.capsLockState) :
    m.setCapsLockState v error =
      ({ d := { m.d with capslock := { m.d.capslock with enabled := v } } },
       ({ m.d with capslock := { m.d.capslock with enabled := v } } :
          KeyboardModelPrivate).updateState error ++ [Event.capsLockStateChanged]) := by
  have h' : (m.d.capslock.enabled != v) = true := by
    simp only [KeyboardModel.capsLockState] at h
    simpa [bne_iff_ne] using fun e => h e.symm
  simp [KeyboardModel.setCapsLockState, h']

theorem setCurrentLayout_changed (m : KeyboardModel) (id : Int) (error : Option Nat)
    (h : id ≠ m.currentLayout) :
    m.setCurrentLayout id error =
      ({ d := { m.d with layout_id := id } },
       ({ m.d with layout_id := id } : KeyboardModelPrivate).updateState error ++
         [Event.currentLayoutChanged]) := by
  have h' : (m.d.layout_id != id) = true := by
    simp only [KeyboardModel.currentLayout] at h
    simpa [bne_iff_ne] using fun e => h e.symm
  simp [KeyboardModel.setCurrentLayout, h']

/-! ## Setters and the `enabled` flag -/

/-- C1, counterexample.  The constructor run against a server that refuses
the extension handshake leaves a disabled model with Num Lock off; on that
model `setNumLockState(true)` turns `numLockState()` on, sends a latch/lock
request and emits `numLockStateChanged`, and `setCapsLockState(true)` does
the same for Caps Lock: the setters are not no-ops. -/
theorem disabled_setter_changes_state :
    KeyboardModelPrivate.KeyboardModelPrivate handshakeFailure =
        some (disabledPrivate, [InitStep.connect]) ∧
    (KeyboardModel.mk disabledPrivate).enabled = false ∧
    (KeyboardModel.mk disabledPrivate).numLockState = false ∧
    ((KeyboardModel.mk disabledPrivate).setNumLockState true none).1.numLockState = true ∧
    ((KeyboardModel.mk disabledPrivate).setNumLockState true none).2 =
      [Event.latchLockState 256 0 0 1 0 0 0 0, Event.numLockStateChanged] ∧
    ((KeyboardModel.mk disabledPrivate).setCapsLockState true none).1.capsLockState = true ∧
    ((KeyboardModel.mk disabledPrivate).setCapsLockState true none).2 =
      [Event.latchLockState 256 0 0 1 0 0 0 0, Event.capsLockStateChanged] := by
  decide

/-- C1, amended.  In a disabled state the lock setters do what they do in
any state, the flag `enabled` not being read: a call with the current value
changes nothing, sends nothing and emits nothing; a call with the other
value stores it, leaves the other lock and `enabled` alone, sends exactly one
latch/lock request and emits exactly the change signal of that lock. -/
theorem disabled_lock_setters (m : KeyboardModel) (v : Bool) (error : Option Nat)
    (h : m.enabled = false) :
    (v = m.numLockState → m.setNumLockState v error = (m, [])) ∧
    (v = m.capsLockState → m.setCapsLockState v error = (m, [])) ∧
    (v ≠ m.numLockState →
      (m.setNumLockState v error).1.numLockState = v ∧
      (m.setNumLockState v error).1.capsLockState = m.capsLockState ∧
      (m.setNumLockState v error).1.enabled = false ∧
      ((m.setNumLockState v error).2.filter Event.isCommand).length = 1 ∧
      (m.setNumLockState v error).2.filter Event.isNotification =
        [Event.numLockStateChanged]) ∧
    (v ≠ m.capsLockState →
      (m.setCapsLockState v error).1.capsLockState = v ∧
      (m.setCapsLockState v error).1.numLockState = m.numLockState ∧
      (m.setCapsLockState v error).1.enabled = false ∧
      ((m.setCapsLockState v error).2.filter Event.isCommand).length = 1 ∧
      (m.setCapsLockState v error).2.filter Event.isNotification =
        [Event.capsLockStateChanged]) := by
  refine ⟨setNumLockState_same m v error, setCapsLockState_same m v error, ?_, ?_⟩
  · intro hv
    rw [setNumLockState_changed m v error hv]
    simp only [KeyboardModel.enabled] at h
    simp [KeyboardModel.numLockState, KeyboardModel.capsLockState, KeyboardModel.enabled, h,
      List.filter_append, updateState_commands, updateState_notifications,
      Event.isCommand, Event.isNotification]
  · intro hv
    rw [setCapsLockState_changed m v error hv]
    simp only [KeyboardModel.enabled] at h
    simp [KeyboardModel.numLockState, KeyboardModel.capsLockState, KeyboardModel.enabled, h,
      List.filter_append, updateState_commands, updateState_notifications,
      Event.isCommand, Event.isNotification]

/-- C1, amended, on the model left by a refused handshake: turning Num Lock
on there stores `true` and emits the signal. -/
theorem disabled_lock_setters_witness :
    (KeyboardModel.mk disabledPrivate).enabled = false ∧
    ((KeyboardModel.mk disabledPrivate).setNumLockState true none).1.numLockState = true ∧
    ((KeyboardModel.mk disabledPrivate).setNumLockState true none).2.filter
      Event.isNotification = [Event.numLockStateChanged] :=
  have h := (disabled_lock_setters (KeyboardModel.mk disabledPrivate) true none rfl).2.2.1
    (by decide)
  ⟨rfl, h.1, h.2.2.2.2⟩

/-- C2.  On an enabled model with Num Lock off, a first `setNumLockState(true)`
turns it on, sends exactly one latch/lock request and emits exactly one
signal, `numLockStateChanged`; a second one changes no field, sends nothing
and emits nothing.  On every enabled model, whatever its locks and layout,
each of the three setters called with the current value returns the model
unchanged with no event, and called with another value stores that value,
sends exactly one request and emits exactly one signal, its own. -/
theorem setter_idempotent (m : KeyboardModel) (hen : m.enabled = true) :
    (m.numLockState = false → ∀ e₁ e₂ : Option Nat,
      (m.setNumLockState true e₁).1.numLockState = true ∧
      ((m.setNumLockState true e₁).2.filter Event.isCommand).length = 1 ∧
      (m.setNumLockState true e₁).2.filter Event.isNotification =
        [Event.numLockStateChanged] ∧
      (m.setNumLockState true e₁).1.setNumLockState true e₂ =
        ((m.setNumLockState true e₁).1, [])) ∧
    (∀ (v : Bool) (e : Option Nat),
      (v = m.numLockState → m.setNumLockState v e = (m, [])) ∧
      (v ≠ m.numLockState →
        (m.setNumLockState v e).1.numLockState = v ∧
        ((m.setNumLockState v e).2.filter Event.isCommand).length = 1 ∧
        (m.setNumLockState v e).2.filter Event.isNotification =
          [Event.numLockStateChanged]) ∧
      (v = m.capsLockState → m.setCapsLockState v e = (m, [])) ∧
      (v ≠ m.capsLockState →
        (m.setCapsLockState v e).1.capsLockState = v ∧
        ((m.setCapsLockState v e).2.filter Event.isCommand).length = 1 ∧
        (m.setCapsLockState v e).2.filter Event.isNotification =
          [Event.capsLockStateChanged])) ∧
    (∀ (id : Int) (e : Option Nat),
      (id = m.currentLayout → m.setCurrentLayout id e = (m, [])) ∧
      (id ≠ m.currentLayout →
        (m.setCurrentLayout id e).1.currentLayout = id ∧
        ((m.setCurrentLayout id e).2.filter Event.isCommand).length = 1 ∧
        (m.setCurrentLayout id e).2.filter Event.isNotification =
          [Event.currentLayoutChanged])) := by
  refine ⟨?_, ?_, ?_⟩
  · intro hoff e₁ e₂
    have hne : true ≠ m.numLockState := by rw [hoff]; decide
    refine ⟨?_, ?_, ?_, ?_⟩
    · rw [setNumLockState_changed m true e₁ hne]; rfl
    · rw [setNumLockState_changed m true e₁ hne]
      simp [List.filter_append, updateState_commands, Event.isCommand]
    · rw [setNumLockState_changed m true e₁ hne]
      simp [List.filter_append, updateState_notifications, Event.isNotification]
    · apply setNumLockState_same
      rw [setNumLockState_changed m true e₁ hne]; rfl
  · intro v e
    refine ⟨setNumLockState_same m v e, ?_, setCapsLockState_same m v e, ?_⟩
    · intro hv
      rw [setNumLockState_changed m v e hv]
      simp [List.filter_append, updateState_commands, updateState_notifications,
        Event.isCommand, Event.isNotification, KeyboardModel.numLockState]
    · intro hv
      rw [setCapsLockState_changed m v e hv]
      simp [List.filter_append, updateState_commands, updateState_notifications,
        Event.isCommand, Event.isNotification, KeyboardModel.capsLockState]
  · intro id e
    refine ⟨setCurrentLayout_same m id e, ?_⟩
    intro hv
    rw [setCurrentLayout_changed m id e hv]
    simp [List.filter_append, updateState_commands, updateState_notifications,
      Event.isCommand, Event.isNotification, KeyboardModel.currentLayout]

/-- C2 on the sample model: the first call turns Num Lock on with one request
and one signal and the second call returns the model as it is; on the model
with Num Lock on, turning it off stores `false` with one request and the
Num Lock signal, and turning Caps Lock on emits the Caps Lock signal. -/
theorem setter_idempotent_witness :
    sampleModel.enabled = true ∧ sampleModel.numLockState = false ∧
    (sampleModel.setNumLockState true none).2 =
      [Event.latchLockState 256 3 1 1 0 0 0 0, Event.numLockStateChanged] ∧
    (sampleModel.setNumLockState true none).1.setNumLockState true none =
      ((sampleModel.setNumLockState true none).1, []) ∧
    (sampleModel.setNumLockState true none).1.numLockState = true ∧
    ((sampleModel.setNumLockState true none).1.setNumLockState false none).1.numLockState
      = false ∧
    ((sampleModel.setNumLockState true none).1.setNumLockState false none).2.filter
      Event.isNotification = [Event.numLockStateChanged] ∧
    ((sampleModel.setNumLockState true none).1.setCapsLockState true none).2.filter
      Event.isNotification = [Event.capsLockStateChanged] :=
  have h₀ := (setter_idempotent sampleModel rfl).1 rfl none none
  have h₁ := (setter_idempotent (sampleModel.setNumLockState true none).1 rfl).2.1 false none
  have h₂ := (setter_idempotent (sampleModel.setNumLockState true none).1 rfl).2.1 true none
  have hoff := h₁.2.1 (by decide)
  have hcaps := h₂.2.2.2 (by decide)
  ⟨rfl, rfl, by decide, h₀.2.2.2, rfl, hoff.1, hoff.2.2, hcaps.2.2⟩

/-! ## The combined latch/lock request -/

/-- C5, counterexample.  Selecting layout 300 on the sample model leaves
`currentLayout()` equal to 300; the request that `setNumLockState(true)` then
sends carries the group 44, the byte the `uint8_t` parameter receives, not
the layout index. -/
theorem command_group_is_narrowed :
    (sampleModel.setCurrentLayout 300 none).1.currentLayout = 300 ∧
    (true ≠ (sampleModel.setCurrentLayout 300 none).1.numLockState) ∧
    ((sampleModel.setCurrentLayout 300 none).1.setNumLockState true none).1.currentLayout
      = 300 ∧
    ((sampleModel.setCurrentLayout 300 none).1.setNumLockState true none).2 =
      [Event.latchLockState 256 3 1 1 44 0 0 0, Event.numLockStateChanged] := by
  decide

/-- C5, amended.  Whenever a setter changes a value, the one latch/lock
request among its events carries `numlock.mask | capslock.mask` as the
affected locks, the masks of the locks that are on as the lock values and,
as the group, `layout_id` reduced modulo 256, all read from the model the
setter returns; that model holds the new value and the masks it had before,
so the request of `setNumLockState(v)` has the Num Lock mask in its lock
values exactly when `v` is true.  When the layout index of the returned
model lies in 0..255 the group is that index. -/
theorem command_reflects_new_state (m : KeyboardModel) (v : Bool) (id : Int)
    (error : Option Nat) :
    (v ≠ m.numLockState →
      (m.setNumLockState v error).2.filter Event.isCommand =
        [Event.latchLockState XCB_XKB_ID_USE_CORE_KBD
          ((m.setNumLockState v error).1.d.numlock.mask |||
            (m.setNumLockState v error).1.d.capslock.mask)
          ((if (m.setNumLockState v error).1.numLockState
              then (m.setNumLockState v error).1.d.numlock.mask else 0) |||
           (if (m.setNumLockState v error).1.capsLockState
              then (m.setNumLockState v error).1.d.capslock.mask else 0))
          1 (toUInt8 (m.setNumLockState v error).1.currentLayout) 0 0 0] ∧
      (m.setNumLockState v error).2.filter Event.isCommand =
        [Event.latchLockState XCB_XKB_ID_USE_CORE_KBD
          (m.d.numlock.mask ||| m.d.capslock.mask)
          ((if v then m.d.numlock.mask else 0) |||
           (if m.capsLockState then m.d.capslock.mask else 0))
          1 (toUInt8 m.currentLayout) 0 0 0]) ∧
    (v ≠ m.capsLockState →
      (m.setCapsLockState v error).2.filter Event.isCommand =
        [Event.latchLockState XCB_XKB_ID_USE_CORE_KBD
          ((m.setCapsLockState v error).1.d.numlock.mask |||
            (m.setCapsLockState v error).1.d.capslock.mask)
          ((if (m.setCapsLockState v error).1.numLockState
              then (m.setCapsLockState v error).1.d.numlock.mask else 0) |||
           (if (m.setCapsLockState v error).1.capsLockState
              then (m.setCapsLockState v error).1.d.capslock.mask else 0))
          1 (toUInt8 (m.setCapsLockState v error).1.currentLayout) 0 0 0] ∧
      (m.setCapsLockState v error).2.filter Event.isCommand =
        [Event.latchLockState XCB_XKB_ID_USE_CORE_KBD
          (m.d.numlock.mask ||| m.d.capslock.mask)
          ((if m.numLockState then m.d.numlock.mask else 0) |||
           (if v then m.d.capslock.mask else 0))
          1 (toUInt8 m.currentLayout) 0 0 0]) ∧
    (id ≠ m.currentLayout →
      (m.setCurrentLayout id error).2.filter Event.isCommand =
        [Event.latchLockState XCB_XKB_ID_USE_CORE_KBD
          ((m.setCurrentLayout id error).1.d.numlock.mask |||
            (m.setCurrentLayout id error).1.d.capslock.mask)
          ((if (m.setCurrentLayout id error).1.numLockState
              then (m.setCurrentLayout id error).1.d.numlock.mask else 0) |||
           (if (m.setCurrentLayout id error).1.capsLockState
              then (m.setCurrentLayout id error).1.d.capslock.mask else 0))
          1 (toUInt8 (m.setCurrentLayout id error).1.currentLayout) 0 0 0] ∧
      (m.setCurrentLayout id error).2.filter Event.isCommand =
        [Event.latchLockState XCB_XKB_ID_USE_CORE_KBD
          (m.d.numlock.mask ||| m.d.capslock.mask)
          ((if m.numLockState then m.d.numlock.mask else 0) |||
           (if m.capsLockState then m.d.capslock.mask else 0))
          1 (toUInt8 id) 0 0 0]) ∧
    (∀ x : Int, 0 ≤ x → x < 256 → (toUInt8 x : Int) = x) := by
  refine ⟨?_, ?_, ?_, toUInt8_of_byte⟩
  · intro hv
    rw [setNumLockState_changed m v error hv]
    simp [List.filter_append, updateState_commands, Event.isCommand,
      KeyboardModel.numLockState, KeyboardModel.capsLockState, KeyboardModel.currentLayout]
  · intro hv
    rw [setCapsLockState_changed m v error hv]
    simp [List.filter_append, updateState_commands, Event.isCommand,
      KeyboardModel.numLockState, KeyboardModel.capsLockState, KeyboardModel.currentLayout]
  · intro hv
    rw [setCurrentLayout_changed m id error hv]
    simp [List.filter_append, updateState_commands, Event.isCommand,
      KeyboardModel.numLockState, KeyboardModel.capsLockState, KeyboardModel.currentLayout]

/-- C5, amended, on the sample model (masks `0x01` and `0x02`, both locks
off, group 0): turning Num Lock on sends affected locks 3, lock values 1 and
group 0, the layout index. -/
theorem command_reflects_new_state_witness :
    true ≠ sampleModel.numLockState ∧
    (sampleModel.setNumLockState true none).2.filter Event.isCommand =
      [Event.latchLockState XCB_XKB_ID_USE_CORE_KBD (1 ||| 2)
        ((if true then 1 else 0) ||| (if false then 2 else 0)) 1 (toUInt8 0) 0 0 0] ∧
    (toUInt8 0 : Int) = sampleModel.currentLayout :=
  have h := command_reflects_new_state sampleModel true 0 none
  ⟨by decide, (h.1 (by decide)).2, h.2.2.2 0 (by decide) (by decide)⟩

/-! ## Rejected requests -/

/-- C9.  When the latch/lock request of a lock setter that changes the value
is answered with an error, the model returned still holds the new value, and
`enabled` is what it was; the error only adds a warning to the events.  On a
model with Caps Lock on, a rejected `setCapsLockState(false)` leaves
`capsLockState()` false. -/
theorem rejected_command_keeps_value (m : KeyboardModel) (v : Bool) (code : Nat)
    (hen : m.enabled = true) :
    (v ≠ m.capsLockState →
      (m.setCapsLockState v (some code)).1.capsLockState = v ∧
      (m.setCapsLockState v (some code)).1.enabled = m.enabled ∧
      (m.setCapsLockState v (some code)).1 = (m.setCapsLockState v none).1 ∧
      Event.warning code ∈ (m.setCapsLockState v (some code)).2) ∧
    (v ≠ m.numLockState →
      (m.setNumLockState v (some code)).1.numLockState = v ∧
      (m.setNumLockState v (some code)).1.enabled = m.enabled ∧
      (m.setNumLockState v (some code)).1 = (m.setNumLockState v none).1 ∧
      Event.warning code ∈ (m.setNumLockState v (some code)).2) ∧
    (m.capsLockState = true →
      (m.setCapsLockState false (some code)).1.capsLockState = false) := by
  refine ⟨?_, ?_, ?_⟩
  · intro hv
    rw [setCapsLockState_changed m v (some code) hv, setCapsLockState_changed m v none hv]
    simp [KeyboardModel.capsLockState, KeyboardModel.enabled, KeyboardModelPrivate.updateState]
  · intro hv
    rw [setNumLockState_changed m v (some code) hv, setNumLockState_changed m v none hv]
    simp [KeyboardModel.numLockState, KeyboardModel.enabled, KeyboardModelPrivate.updateState]
  · intro hon
    have hv : false ≠ m.capsLockState := by rw [hon]; decide
    rw [setCapsLockState_changed m false (some code) hv]
    rfl

/-- C9 on the sample model with Caps Lock turned on first: the rejected
request to turn it off leaves it off, with the warning logged. -/
theorem rejected_command_keeps_value_witness :
    (sampleModel.setCapsLockState true none).1.enabled = true ∧
    (sampleModel.setCapsLockState true none).1.capsLockState = true ∧
    (((sampleModel.setCapsLockState true none).1.setCapsLockState false (some 2)).1.capsLockState
      = false) :=
  ⟨rfl, rfl,
    (rejected_command_keeps_value (sampleModel.setCapsLockState true none).1 false 2 rfl).2.2
      rfl⟩

/-! ## Initialisation: what each step leaves alone -/

theorem initLedMapLoop_frame (svc : XkbService) (atoms : List Nat) (i : Nat)
    (d : KeyboardModelPrivate) :
    (initLedMapLoop svc atoms i d).enabled = d.enabled ∧
    (initLedMapLoop svc atoms i d).numlock.enabled = d.numlock.enabled ∧
    (initLedMapLoop svc atoms i d).capslock.enabled = d.capslock.enabled ∧
    (initLedMapLoop svc atoms i d).layout_id = d.layout_id ∧
    (initLedMapLoop svc atoms i d).layouts = d.layouts ∧
    (initLedMapLoop svc atoms i d).conn = d.conn := by
  induction atoms generalizing i d with
  | nil => simp [initLedMapLoop]
  | cons atom rest ih =>
    simp only [initLedMapLoop]
    split_ifs <;> simpa using ih _ _

theorem connect_ok (d : KeyboardModelPrivate) (svc : XkbService)
    (hc : svc.xcb_connect = true) (he : svc.use_extension_error = none) :
    d.connect svc = { d with conn := true } := by
  simp [KeyboardModelPrivate.connect, hc, he]

theorem connect_handshake_failed (d : KeyboardModelPrivate) (svc : XkbService)
    (hc : svc.xcb_connect = true) (he : svc.use_extension_error ≠ none) :
    d.connect svc = { d with conn := true, enabled := false } := by
  unfold KeyboardModelPrivate.connect
  cases hx : svc.use_extension_error
  · exact absurd hx he
  · simp [hc]

/-- On a handle in the error state `connect` sees no error. -/
theorem connect_unusable (d : KeyboardModelPrivate) (svc : XkbService)
    (hc : svc.xcb_connect = false) : d.connect svc = { d with conn := true } := by
  simp [KeyboardModelPrivate.connect, hc]

theorem initLedMap_ok (d : KeyboardModelPrivate) (svc : XkbService) (inds : List Nat)
    (hc : svc.xcb_connect = true) (hi : svc.indicator_names = some inds) :
    d.initLedMap svc = some (initLedMapLoop svc inds 0 d) := by
  simp [KeyboardModelPrivate.initLedMap, hc, hi]

/-- The constructor on a server that answers every request: the fields are
the ones the four steps write in turn. -/
theorem constructor_ok (svc : XkbService) (inds : List Nat) (names : GetNamesReply)
    (reply : GetStateReply) (hc : svc.xcb_connect = true) (he : svc.use_extension_error = none)
    (hi : svc.indicator_names = some inds) (hg : svc.group_names = some names)
    (hs : svc.get_state = some reply) :
    ∃ dl : KeyboardModelPrivate,
      dl = initLedMapLoop svc inds 0 { conn := true } ∧
      (dl.initLayouts svc).isSome = true ∧
      KeyboardModelPrivate.KeyboardModelPrivate svc =
        ((dl.initLayouts svc).map fun d =>
          (d.initState svc,
            [InitStep.connect, InitStep.initLedMap, InitStep.initLayouts, InitStep.initState]))
      := by
  refine ⟨_, rfl, ?_, ?_⟩
  · simp [KeyboardModelPrivate.initLayouts, hg]
  · have h1 : (initLedMapLoop svc inds 0 { conn := true }).enabled = true :=
      (initLedMapLoop_frame svc inds 0 { conn := true }).1
    simp [KeyboardModelPrivate.KeyboardModelPrivate, connect_ok _ svc hc he,
      initLedMap_ok _ svc inds hc hi, h1, KeyboardModelPrivate.initLayouts, hg]

/-! ## Failed connection or handshake -/

/-- C10, the code at the failing input.  When the server cannot be reached,
`xcb_connect` returns a handle in the error state, not a null pointer:
`connect` passes both of its tests and leaves `enabled` true, the constructor
goes on to `initLedMap`, and `initLedMap` reads a null reply, so no disabled
model comes out.  A refused handshake on a usable connection is detected:
only `connect` runs and the model is disabled with every other field at its
default. -/
theorem failed_connection_not_detected :
    connectFailure.xcb_connect = false ∧
    (({} : KeyboardModelPrivate).connect connectFailure).enabled = true ∧
    (({} : KeyboardModelPrivate).connect connectFailure).initLedMap connectFailure = none ∧
    KeyboardModelPrivate.KeyboardModelPrivate connectFailure = none ∧
    KeyboardModel.KeyboardModel connectFailure = none ∧
    KeyboardModelPrivate.KeyboardModelPrivate handshakeFailure =
      some ({ enabled := false, conn := true }, [InitStep.connect]) := by
  decide

/-! ## State snapshot -/

/-- C6.  With a reply to the state request, `initState` sets Caps Lock to
"the locked modifiers have a bit of `capslock.mask`", Num Lock likewise with
`numlock.mask`, and the layout index to the reported group, whatever the two
masks are, and leaves the masks and `enabled` alone.  With locked modifiers
`0x03` and masks `0x01` and `0x02` both locks are on.  On a server that
answers every request, the model built by the constructor is enabled and has
these three values, computed with the masks it ends with. -/
theorem snapshot_sets_locks (d : KeyboardModelPrivate) (svc : XkbService)
    (reply : GetStateReply) (hs : svc.get_state = some reply) :
    ((KeyboardModel.mk (d.initState svc)).capsLockState =
        ((reply.lockedMods &&& d.capslock.mask) != 0) ∧
     (KeyboardModel.mk (d.initState svc)).numLockState =
        ((reply.lockedMods &&& d.numlock.mask) != 0) ∧
     (KeyboardModel.mk (d.initState svc)).currentLayout = (reply.group : Int) ∧
     (d.initState svc).numlock.mask = d.numlock.mask ∧
     (d.initState svc).capslock.mask = d.capslock.mask ∧
     (d.initState svc).enabled = d.enabled) ∧
    (reply.lockedMods = 3 → d.numlock.mask = 1 → d.capslock.mask = 2 →
      (KeyboardModel.mk (d.initState svc)).numLockState = true ∧
      (KeyboardModel.mk (d.initState svc)).capsLockState = true) ∧
    (svc.xcb_connect = true → svc.use_extension_error = none →
      svc.indicator_names ≠ none → svc.group_names ≠ none →
      ∃ m : KeyboardModel, KeyboardModel.KeyboardModel svc = some m ∧
        m.enabled = true ∧
        m.capsLockState = ((reply.lockedMods &&& m.d.capslock.mask) != 0) ∧
        m.numLockState = ((reply.lockedMods &&& m.d.numlock.mask) != 0) ∧
        m.currentLayout = (reply.group : Int)) := by
  have hgen : ∀ d : KeyboardModelPrivate,
      (KeyboardModel.mk (d.initState svc)).capsLockState =
        ((reply.lockedMods &&& d.capslock.mask) != 0) ∧
      (KeyboardModel.mk (d.initState svc)).numLockState =
        ((reply.lockedMods &&& d.numlock.mask) != 0) ∧
      (KeyboardModel.mk (d.initState svc)).currentLayout = (reply.group : Int) ∧
      (d.initState svc).numlock.mask = d.numlock.mask ∧
      (d.initState svc).capslock.mask = d.capslock.mask ∧
      (d.initState svc).enabled = d.enabled := by
    intro d
    simp [KeyboardModelPrivate.initState, hs, KeyboardModel.capsLockState,
      KeyboardModel.numLockState, KeyboardModel.currentLayout]
  refine ⟨hgen d, ?_, ?_⟩
  · intro h3 hn hc
    rw [(hgen d).1, (hgen d).2.1, h3, hn, hc]
    decide
  · intro hc he hi hg
    obtain ⟨inds, hi⟩ := Option.ne_none_iff_exists'.mp hi
    obtain ⟨names, hg⟩ := Option.ne_none_iff_exists'.mp hg
    obtain ⟨dl, hdl, hsome, hk⟩ := constructor_ok svc inds names reply hc he hi hg hs
    obtain ⟨d3, hd3⟩ := Option.isSome_iff_exists.mp hsome
    have hen3 : d3.enabled = true := by
      have := (initLedMapLoop_frame svc inds 0 { conn := true }).1
      simp only [KeyboardModelPrivate.initLayouts, hg, Option.some.injEq] at hd3
      rw [← hd3, hdl]
      simpa using this
    refine ⟨⟨d3.initState svc⟩, ?_, ?_, ?_, ?_, ?_⟩
    · simp [KeyboardModel.KeyboardModel, hk, hd3]
    · simp only [KeyboardModel.enabled]; rw [(hgen d3).2.2.2.2.2, hen3]
    · simp only [(hgen d3).2.2.2.2.1]; exact (hgen d3).1
    · simp only [(hgen d3).2.2.2.1]; exact (hgen d3).2.1
    · exact (hgen d3).2.2.1

/-- C6 on the sample server (locked modifiers `0x03`, "Num Lock" mask `0x01`,
"Caps Lock" mask `0x02`, group 1): the constructed model has both locks on
and layout index 1. -/
theorem snapshot_sets_locks_witness :
    sampleService.get_state = some { lockedMods := 3, group := 1 } ∧
    ∃ m : KeyboardModel, KeyboardModel.KeyboardModel sampleService = some m ∧
      m.enabled = true ∧
      m.capsLockState = (((3 : Nat) &&& m.d.capslock.mask) != 0) ∧
      m.numLockState = (((3 : Nat) &&& m.d.numlock.mask) != 0) ∧
      m.currentLayout = 1 :=
  ⟨rfl, (snapshot_sets_locks {} sampleService { lockedMods := 3, group := 1 } rfl).2.2
    rfl rfl (by decide) (by decide)⟩

/-! ## Indicator map -/

theorem labels_differ : ("Num Lock" : String) ≠ "Caps Lock" := by decide

theorem initLedMapLoop_numlock_none (svc : XkbService) (atoms : List Nat) (i : Nat)
    (d : KeyboardModelPrivate)
    (h : ∀ a ∈ atoms, KeyboardModelPrivate.atomName svc a ≠ "Num Lock") :
    (initLedMapLoop svc atoms i d).numlock.mask = d.numlock.mask := by
  induction atoms generalizing i d with
  | nil => rfl
  | cons atom rest ih =>
    have ha := h atom (List.mem_cons_self _ _)
    have hr : ∀ a ∈ rest, KeyboardModelPrivate.atomName svc a ≠ "Num Lock" :=
      fun a ha => h a (List.mem_cons_of_mem _ ha)
    simp only [initLedMapLoop, if_neg ha]
    split_ifs <;> rw [ih _ _ hr]

theorem initLedMapLoop_capslock_none (svc : XkbService) (atoms : List Nat) (i : Nat)
    (d : KeyboardModelPrivate)
    (h : ∀ a ∈ atoms, KeyboardModelPrivate.atomName svc a ≠ "Caps Lock") :
    (initLedMapLoop svc atoms i d).capslock.mask = d.capslock.mask := by
  induction atoms generalizing i d with
  | nil => rfl
  | cons atom rest ih =>
    have ha := h atom (List.mem_cons_self _ _)
    have hr : ∀ a ∈ rest, KeyboardModelPrivate.atomName svc a ≠ "Caps Lock" :=
      fun a ha => h a (List.mem_cons_of_mem _ ha)
    simp only [initLedMapLoop, if_neg ha]
    split_ifs <;> rw [ih _ _ hr]

theorem initLedMapLoop_neither (svc : XkbService) (atoms : List Nat) (i : Nat)
    (d : KeyboardModelPrivate)
    (h : ∀ a ∈ atoms, KeyboardModelPrivate.atomName svc a ≠ "Num Lock" ∧
      KeyboardModelPrivate.atomName svc a ≠ "Caps Lock") :
    initLedMapLoop svc atoms i d = d := by
  induction atoms generalizing i d with
  | nil => rfl
  | cons atom rest ih =>
    have ha := h atom (List.mem_cons_self _ _)
    simp only [initLedMapLoop, if_neg ha.1, if_neg ha.2]
    exact ih _ _ fun a ha => h a (List.mem_cons_of_mem _ ha)

/-- No other slot carries the label when slot 0 is the only one that does. -/
theorem tail_without_label (svc : XkbService) (atom : Nat) (rest : List Nat) (label : String)
    (h : ∀ j, ((atom :: rest).map (KeyboardModelPrivate.atomName svc))[j]? = some label → j = 0) :
    ∀ a ∈ rest, KeyboardModelPrivate.atomName svc a ≠ label := by
  intro a ha hl
  obtain ⟨j, hj⟩ := List.getElem?_of_mem ha
  have := h (j + 1) (by simp [hj, hl])
  omega

theorem initLedMapLoop_numlock_unique (svc : XkbService) (atoms : List Nat) (i k : Nat)
    (d : KeyboardModelPrivate)
    (hk : (atoms.map (KeyboardModelPrivate.atomName svc))[k]? = some "Num Lock")
    (hu : ∀ j, (atoms.map (KeyboardModelPrivate.atomName svc))[j]? = some "Num Lock" → j = k) :
    (initLedMapLoop svc atoms i d).numlock.mask =
      KeyboardModelPrivate.getIndicatorMask svc (i + k) := by
  induction atoms generalizing i k d with
  | nil => simp at hk
  | cons atom rest ih =>
    cases k with
    | zero =>
      have ha : KeyboardModelPrivate.atomName svc atom = "Num Lock" := by simpa using hk
      simp only [initLedMapLoop, if_pos ha]
      rw [initLedMapLoop_numlock_none svc rest _ _ (tail_without_label svc atom rest _ hu)]
      rfl
    | succ k =>
      have ha : KeyboardModelPrivate.atomName svc atom ≠ "Num Lock" := by
        intro ha
        have := hu 0 (by simp [ha])
        omega
      have hk' : (rest.map (KeyboardModelPrivate.atomName svc))[k]? = some "Num Lock" := by
        simpa using hk
      have hu' : ∀ j, (rest.map (KeyboardModelPrivate.atomName svc))[j]? = some "Num Lock" →
          j = k := by
        intro j hj
        have := hu (j + 1) (by simpa using hj)
        omega
      simp only [initLedMapLoop, if_neg ha]
      rw [ih (i + 1) k _ hk' hu']
      congr 1; omega

theorem initLedMapLoop_capslock_unique (svc : XkbService) (atoms : List Nat) (i k : Nat)
    (d : KeyboardModelPrivate)
    (hk : (atoms.map (KeyboardModelPrivate.atomName svc))[k]? = some "Caps Lock")
    (hu : ∀ j, (atoms.map (KeyboardModelPrivate.atomName svc))[j]? = some "Caps Lock" → j = k) :
    (initLedMapLoop svc atoms i d).capslock.mask =
      KeyboardModelPrivate.getIndicatorMask svc (i + k) := by
  induction atoms generalizing i k d with
  | nil => simp at hk
  | cons atom rest ih =>
    cases k with
    | zero =>
      have ha : KeyboardModelPrivate.atomName svc atom = "Caps Lock" := by simpa using hk
      have hn : KeyboardModelPrivate.atomName svc atom ≠ "Num Lock" := by
        rw [ha]; exact fun h => labels_differ h.symm
      simp only [initLedMapLoop, if_neg hn, if_pos ha]
      rw [initLedMapLoop_capslock_none svc rest _ _ (tail_without_label svc atom rest _ hu)]
      rfl
    | succ k =>
      have ha : KeyboardModelPrivate.atomName svc atom ≠ "Caps Lock" := by
        intro ha
        have := hu 0 (by simp [ha])
        omega
      have hk' : (rest.map (KeyboardModelPrivate.atomName svc))[k]? = some "Caps Lock" := by
        simpa using hk
      have hu' : ∀ j, (rest.map (KeyboardModelPrivate.atomName svc))[j]? = some "Caps Lock" →
          j = k := by
        intro j hj
        have := hu (j + 1) (by simpa using hj)
        omega
      simp only [initLedMapLoop, if_neg ha]
      split_ifs
      · rw [ih (i + 1) k _ hk' hu']
        congr 1; omega
      · rw [ih (i + 1) k _ hk' hu']
        congr 1; omega


theorem getIndicatorMask_slot (svc : XkbService) (i mods : Nat) (hi : i < 32)
    (h : svc.indicator_map (1 <<< i) = some mods) :
    KeyboardModelPrivate.getIndicatorMask svc i = mods := by
  have : i % 256 = i := Nat.mod_eq_of_lt (by omega)
  simp [KeyboardModelPrivate.getIndicatorMask, this, h]

/-- C7.  Let the indicator name request be answered, on a usable connection,
with at most 32 atoms (the slots of the protocol), let `mods i` be the
modifier mask the server reports for slot `i`, and let exactly one slot
resolve to "Num Lock" and exactly one to "Caps Lock".  Then `initLedMap`
returns a model whose `numlock.mask` is the mask of the "Num Lock" slot and
whose `capslock.mask` is the mask of the "Caps Lock" slot, whatever the other
slots are called and whatever their masks are.  When no slot resolves to
either label, compared exactly, the model is returned as it was.  With names
"Caps Lock", "Num Lock" and masks `0x02` for slot 0 and `0x01` for slot 1 the
Caps Lock mask is `0x02` and the Num Lock mask is `0x01`. -/
theorem indicator_masks_by_name (svc : XkbService) (d : KeyboardModelPrivate)
    (atoms : List Nat) (hc : svc.xcb_connect = true)
    (hi : svc.indicator_names = some atoms) :
    ∃ d₁ : KeyboardModelPrivate, d.initLedMap svc = some d₁ ∧
    (∀ (mods : Nat → Nat) (iN iC : Nat),
      atoms.length ≤ 32 →
      (∀ i, i < atoms.length → svc.indicator_map (1 <<< i) = some (mods i)) →
      (atoms.map (KeyboardModelPrivate.atomName svc))[iN]? = some "Num Lock" →
      (∀ j, (atoms.map (KeyboardModelPrivate.atomName svc))[j]? = some "Num Lock" → j = iN) →
      (atoms.map (KeyboardModelPrivate.atomName svc))[iC]? = some "Caps Lock" →
      (∀ j, (atoms.map (KeyboardModelPrivate.atomName svc))[j]? = some "Caps Lock" → j = iC) →
      d₁.numlock.mask = mods iN ∧
      d₁.capslock.mask = mods iC ∧
      d₁.enabled = d.enabled) ∧
    ((∀ a ∈ atoms, KeyboardModelPrivate.atomName svc a ≠ "Num Lock" ∧
        KeyboardModelPrivate.atomName svc a ≠ "Caps Lock") →
      d₁ = d) ∧
    (∀ a₀ a₁ : Nat, atoms = [a₀, a₁] →
      KeyboardModelPrivate.atomName svc a₀ = "Caps Lock" →
      KeyboardModelPrivate.atomName svc a₁ = "Num Lock" →
      svc.indicator_map 1 = some 2 → svc.indicator_map 2 = some 1 →
      d₁.capslock.mask = 2 ∧ d₁.numlock.mask = 1) := by
  refine ⟨initLedMapLoop svc atoms 0 d, initLedMap_ok d svc atoms hc hi, ?_, ?_, ?_⟩
  · intro mods iN iC hlen hm hN hN1 hC hC1
    have hNlt : iN < atoms.length := by
      have := (List.getElem?_eq_some.mp hN).1
      simpa using this
    have hClt : iC < atoms.length := by
      have := (List.getElem?_eq_some.mp hC).1
      simpa using this
    rw [initLedMapLoop_numlock_unique svc atoms 0 iN d hN hN1,
      initLedMapLoop_capslock_unique svc atoms 0 iC d hC hC1]
    refine ⟨?_, ?_, (initLedMapLoop_frame svc atoms 0 d).1⟩
    · rw [Nat.zero_add]
      exact getIndicatorMask_slot svc iN _ (by omega) (hm iN hNlt)
    · rw [Nat.zero_add]
      exact getIndicatorMask_slot svc iC _ (by omega) (hm iC hClt)
  · intro h
    exact initLedMapLoop_neither svc atoms 0 d h
  · intro a₀ a₁ ha h0 h1 hm0 hm1
    have hn0 : KeyboardModelPrivate.atomName svc a₀ ≠ "Num Lock" := by
      rw [h0]; exact fun h => labels_differ h.symm
    rw [ha]
    simp [initLedMapLoop, h0, h1, KeyboardModelPrivate.getIndicatorMask, hm0, hm1]

/-- C7 on the sample server, whose slots are "Caps Lock" with mask `0x02` and
"Num Lock" with mask `0x01`: slot 1 is the only "Num Lock", slot 0 the only
"Caps Lock", and the masks are read from these slots. -/
theorem indicator_masks_by_name_witness :
    sampleService.xcb_connect = true ∧
    sampleService.indicator_names = some [10, 11] ∧
    ∃ d₁ : KeyboardModelPrivate,
      ({} : KeyboardModelPrivate).initLedMap sampleService = some d₁ ∧
      d₁.numlock.mask = 1 ∧ d₁.capslock.mask = 2 := by
  obtain ⟨d₁, hd, hgen, _, _⟩ := indicator_masks_by_name sampleService {} [10, 11] rfl rfl
  have h := hgen (fun i => if i = 0 then 2 else 1) 1 0 (by decide)
    (by intro i hi
        have : i = 0 ∨ i = 1 := by simp at hi; omega
        rcases this with rfl | rfl <;> rfl)
    rfl
    (by intro j hj
        match j, hj with
        | 0, hj => simp [sampleService, KeyboardModelPrivate.atomName] at hj
        | 1, _ => rfl
        | j + 2, hj => simp at hj)
    rfl
    (by intro j hj
        match j, hj with
        | 0, _ => rfl
        | 1, hj => simp [sampleService, KeyboardModelPrivate.atomName] at hj
        | j + 2, hj => simp at hj)
  exact ⟨rfl, rfl, d₁, hd, h.1, h.2.1⟩

/-! ## Layout catalog -/

/-- C8.  With a reply to the group name request listing `n` group atoms,
`initLayouts` returns a model whose catalog has exactly `n` entries; entry
`i` has the resolved name of group atom `i` as long name and, as short name,
token `i` of `parseShortNames` applied to the resolved symbols string when
there is such a token and the empty string otherwise; no other field
changes.  With three groups and two tokens, the third entry has an empty
short name and the resolved name of the third atom as long name. -/
theorem layout_catalog (d : KeyboardModelPrivate) (svc : XkbService) (reply : GetNamesReply)
    (hg : svc.group_names = some reply) :
    ∃ d₁ : KeyboardModelPrivate, d.initLayouts svc = some d₁ ∧
      d₁ = { d with layouts := d₁.layouts } ∧
      (KeyboardModel.mk d₁).layouts.length = reply.groups.length ∧
      (∀ (i atom : Nat), reply.groups[i]? = some atom →
        ∃ l : Layout, (KeyboardModel.mk d₁).layouts[i]? = some l ∧
          l.longName = KeyboardModelPrivate.atomName svc atom ∧
          (∀ t, (KeyboardModelPrivate.parseShortNames
              (KeyboardModelPrivate.atomName svc reply.symbolsName))[i]? = some t →
            l.shortName = t) ∧
          ((KeyboardModelPrivate.parseShortNames
              (KeyboardModelPrivate.atomName svc reply.symbolsName)).length ≤ i →
            l.shortName = "")) ∧
      (∀ atom : Nat, reply.groups.length = 3 → reply.groups[2]? = some atom →
        (KeyboardModelPrivate.parseShortNames
          (KeyboardModelPrivate.atomName svc reply.symbolsName)).length = 2 →
        (KeyboardModel.mk d₁).layouts[2]? =
          some (Layout.mk "" (KeyboardModelPrivate.atomName svc atom))) := by
  have hentry : ∀ (i atom : Nat), reply.groups[i]? = some atom →
      ((List.range reply.groups.length).map fun i =>
        Layout.mk
          (if i < (KeyboardModelPrivate.parseShortNames
              (KeyboardModelPrivate.atomName svc reply.symbolsName)).length
            then (KeyboardModelPrivate.parseShortNames
              (KeyboardModelPrivate.atomName svc reply.symbolsName)).getD i "" else "")
          (KeyboardModelPrivate.atomName svc
            ((reply.symbolsName :: reply.groups).getD (i + 1) 0)))[i]? =
      some (Layout.mk
          (if i < (KeyboardModelPrivate.parseShortNames
              (KeyboardModelPrivate.atomName svc reply.symbolsName)).length
            then (KeyboardModelPrivate.parseShortNames
              (KeyboardModelPrivate.atomName svc reply.symbolsName)).getD i "" else "")
          (KeyboardModelPrivate.atomName svc atom)) := by
    intro i atom hi
    have hlt : i < reply.groups.length := (List.getElem?_eq_some.mp hi).1
    simp [List.getElem?_map, List.getElem?_range hlt, List.getD_eq_getElem?_getD, hi]
  refine ⟨_, by simp only [KeyboardModelPrivate.initLayouts, hg]; rfl, rfl, ?_, ?_, ?_⟩
  · simp [KeyboardModel.layouts]
  · intro i atom hi
    refine ⟨_, hentry i atom hi, rfl, ?_, ?_⟩
    · intro t ht
      have hlt := (List.getElem?_eq_some.mp ht).1
      simp [Layout.shortName, hlt, List.getD_eq_getElem?_getD, ht]
    · intro hle
      simp [Layout.shortName, Nat.not_lt.mpr hle]
  · intro atom _ h2 htok
    have := hentry 2 atom h2
    simpa [htok, KeyboardModel.layouts] using this

/-- C8 on the sample server: three groups, the tokens `us` and `ru`. -/
theorem layout_catalog_witness :
    sampleService.group_names = some { symbolsName := 20, groups := [21, 22, 23] } ∧
    ∃ d₁ : KeyboardModelPrivate,
      ({} : KeyboardModelPrivate).initLayouts sampleService = some d₁ ∧
      d₁.layouts.length = 3 ∧
      d₁.layouts = [Layout.mk "us" "English (US)", Layout.mk "ru" "Russian",
        Layout.mk "" "German"] :=
  have ⟨d₁, h1, _, h3, _⟩ := layout_catalog {} sampleService
    { symbolsName := 20, groups := [21, 22, 23] } rfl
  ⟨rfl, d₁, h1, h3, by
    have h : ({} : KeyboardModelPrivate).initLayouts sampleService =
        some { layouts := [Layout.mk "us" "English (US)", Layout.mk "ru" "Russian",
          Layout.mk "" "German"] } := by decide
    rw [h] at h1
    rw [← Option.some.inj h1]⟩

/-! ## Short names: the regular expression -/

theorem reMatchHere_some {s cap : List Char} (h : reMatchHere s = some cap) :
    ∃ rest, s = '+' :: rest ∧ cap = rest.takeWhile reLetter ∧ cap ≠ [] := by
  cases s with
  | nil => simp [reMatchHere] at h
  | cons c rest =>
    simp only [reMatchHere] at h
    split_ifs at h with hc he
    · subst hc
      refine ⟨rest, rfl, (Option.some.inj h).symm, ?_⟩
      rw [← Option.some.inj h]
      simpa [List.isEmpty_iff] using he

theorem reSearch_some {s : List Char} {pos p : Nat} {cap : List Char}
    (h : reSearch s pos = some (p, cap)) :
    ∃ k, p = pos + k ∧ k < s.length ∧ reMatchHere (s.drop k) = some cap := by
  induction s generalizing pos with
  | nil => simp [reSearch] at h
  | cons c rest ih =>
    simp only [reSearch] at h
    split at h
    · next cap₁ hm =>
      simp only [Option.some.injEq, Prod.mk.injEq] at h
      exact ⟨0, by omega, by simp, by rw [← h.2]; simpa using hm⟩
    · obtain ⟨k, hk, hlt, hm⟩ := ih h
      exact ⟨k + 1, by omega, by simp; omega, by simpa using hm⟩

theorem indexIn_some {text : List Char} {pos p : Nat} {cap : List Char}
    (h : indexIn text pos = some (p, cap)) :
    pos ≤ p ∧ p < text.length ∧ reMatchHere (text.drop p) = some cap := by
  obtain ⟨k, hk, hlt, hm⟩ := reSearch_some h
  rw [List.length_drop] at hlt
  refine ⟨by omega, by omega, ?_⟩
  rw [List.drop_drop] at hm
  rw [hk]
  exact hm

theorem takeWhile_stops {α : Type} (q : α → Bool) (l : List α) (c : α)
    (h : l[(l.takeWhile q).length]? = some c) : q c = false := by
  induction l with
  | nil => simp at h
  | cons a l ih =>
    by_cases ha : q a = true
    · rw [List.takeWhile_cons_of_pos ha] at h
      exact ih (by simpa using h)
    · rw [List.takeWhile_cons_of_neg ha] at h
      simp at h
      rw [← h]; simpa using ha

theorem tokenAt_of_match {text : List Char} {p : Nat} {cap : List Char}
    (h : reMatchHere (text.drop p) = some cap) :
    TokenAt text p cap ∧ p + (1 + cap.length) ≤ text.length := by
  obtain ⟨rest, hs, hcap, hne⟩ := reMatchHere_some h
  have hrest : text.drop (p + 1) = rest := by
    have : (text.drop p).drop 1 = rest := by rw [hs]; rfl
    rw [List.drop_drop] at this
    exact this
  have hplus : text[p]? = some '+' := by
    have : (text.drop p)[0]? = some '+' := by rw [hs]; simp
    simpa using this
  have hpre : cap <+: rest := by rw [hcap]; exact List.takeWhile_prefix _
  refine ⟨⟨hne, ?_, hplus, ?_, ?_⟩, ?_⟩
  · intro c hc
    rw [hcap] at hc
    exact (List.mem_takeWhile_imp hc)
  · rw [hrest]
    exact (List.prefix_iff_eq_take.mp hpre).symm
  · intro c hc
    have h1 : rest[cap.length]? = some c := by
      rw [← hrest, List.getElem?_drop]
      exact hc
    rw [hcap] at h1
    exact takeWhile_stops reLetter rest c h1
  · have h1 : cap.length ≤ rest.length := hpre.length_le
    have h2 : rest.length = text.length - (p + 1) := by rw [← hrest, List.length_drop]
    have h3 : p < text.length := by
      by_contra hcon
      have : text[p]? = none := List.getElem?_eq_none (by omega)
      rw [this] at hplus; cases hplus
    omega


/-! ## Short names: the loop -/

theorem parseShortNamesLoop_isSome (text : List Char) (fuel pos : Nat) (res : List String)
    (hpos : pos ≤ text.length) (hfuel : text.length < pos + 2 * fuel) :
    ∃ out, parseShortNamesLoop text fuel pos res = some out := by
  induction fuel generalizing pos res with
  | zero => omega
  | succ fuel ih =>
    simp only [parseShortNamesLoop]
    split
    · exact ⟨res, rfl⟩
    · next p cap hm =>
      obtain ⟨hle, _, hmatch⟩ := indexIn_some hm
      obtain ⟨htok, hend⟩ := tokenAt_of_match hmatch
      have hlen : 0 < cap.length := List.length_pos.mpr htok.1
      exact ih _ _ hend (by omega)

theorem parseShortNamesLoop_more_fuel (text : List Char) (fuel k pos : Nat)
    (res out : List String) (h : parseShortNamesLoop text fuel pos res = some out) :
    parseShortNamesLoop text (fuel + k) pos res = some out := by
  induction fuel generalizing pos res with
  | zero => simp [parseShortNamesLoop] at h
  | succ fuel ih =>
    have e : fuel + 1 + k = (fuel + k) + 1 := by omega
    rw [e]
    simp only [parseShortNamesLoop] at h ⊢
    split
    · next hm => simpa [hm] using h
    · next p cap hm =>
      simp only [hm] at h
      exact ih _ _ h

theorem parseShortNamesLoop_tokens (text : List Char) (fuel pos : Nat)
    (res out : List String) (ps : List Nat)
    (h : parseShortNamesLoop text fuel pos res = some out)
    (htok : List.Forall₂ (fun p t => TokenAt text p (String.toList t)) ps res)
    (hord : ps.Pairwise (· < ·)) (hbelow : ∀ q ∈ ps, q < pos) :
    ∃ qs : List Nat, qs.Pairwise (· < ·) ∧
      List.Forall₂ (fun p t => TokenAt text p (String.toList t)) qs out := by
  induction fuel generalizing pos res ps with
  | zero => simp [parseShortNamesLoop] at h
  | succ fuel ih =>
    simp only [parseShortNamesLoop] at h
    split at h
    · rw [← Option.some.inj h]
      exact ⟨ps, hord, htok⟩
    · next p cap hm =>
      obtain ⟨hle, _, hmatch⟩ := indexIn_some hm
      obtain ⟨hcap, _⟩ := tokenAt_of_match hmatch
      by_cases hb : blackList.contains (String.mk cap) = true
      · rw [if_pos hb] at h
        exact ih _ _ _ h htok hord (fun q hq => by have := hbelow q hq; omega)
      · rw [if_neg hb] at h
        refine ih _ _ (ps ++ [p]) h ?_ ?_ ?_
        · exact List.rel_append htok (List.Forall₂.cons hcap List.Forall₂.nil)
        · rw [List.pairwise_append]
          refine ⟨hord, List.pairwise_singleton _ _, ?_⟩
          intro a ha b hb'
          have := hbelow a ha
          simp only [List.mem_singleton] at hb'
          omega
        · intro q hq
          rcases List.mem_append.mp hq with hq | hq
          · have := hbelow q hq; omega
          · simp only [List.mem_singleton] at hq
            omega

theorem parseShortNamesLoop_not_listed (text : List Char) (fuel pos : Nat)
    (res out : List String) (h : parseShortNamesLoop text fuel pos res = some out)
    (hres : ∀ t ∈ res, t ∉ blackList) : ∀ t ∈ out, t ∉ blackList := by
  induction fuel generalizing pos res with
  | zero => simp [parseShortNamesLoop] at h
  | succ fuel ih =>
    simp only [parseShortNamesLoop] at h
    split at h
    · rw [← Option.some.inj h]; exact hres
    · next p cap hm =>
      by_cases hb : blackList.contains (String.mk cap) = true
      · rw [if_pos hb] at h
        exact ih _ _ h hres
      · rw [if_neg hb] at h
        refine ih _ _ h ?_
        intro t ht
        rcases List.mem_append.mp ht with ht | ht
        · exact hres t ht
        · simp only [List.mem_singleton] at ht
          rw [ht]
          simpa using hb

theorem parseShortNames_eq_loop (text : String) (k : Nat) :
    parseShortNamesLoop text.toList (text.length + 1 + k) 0 [] =
      some (KeyboardModelPrivate.parseShortNames text) := by
  have hlen : text.toList.length = text.length := by cases text; rfl
  obtain ⟨out, hout⟩ := parseShortNamesLoop_isSome text.toList (text.length + 1) 0 []
    (Nat.zero_le _) (by omega)
  rw [parseShortNamesLoop_more_fuel _ _ k _ _ _ hout]
  unfold KeyboardModelPrivate.parseShortNames
  rw [hout]
  rfl

/-- C3.  The loop of `parseShortNames` ends by finding no further match
within the iterations it is given, and more iterations do not change the
result.  The tokens returned correspond, in order, to strictly increasing
offsets of the text, and each token is at its offset a non-empty run of
letters that starts right after a plus sign and is followed by the end of
the text or by a character that is not a letter; so a run of letters that
no plus sign introduces is not returned.  The text
`pc+us+inet(evdev)+group(basic)+ru:2` gives `us`, `ru`. -/
theorem parseShortNames_tokens (text : String) :
    (∀ k, parseShortNamesLoop text.toList (text.length + 1 + k) 0 [] =
      some (KeyboardModelPrivate.parseShortNames text)) ∧
    (∃ ps : List Nat, ps.Pairwise (· < ·) ∧
      List.Forall₂ (fun p t => TokenAt text.toList p (String.toList t)) ps
        (KeyboardModelPrivate.parseShortNames text)) ∧
    KeyboardModelPrivate.parseShortNames "pc+us+inet(evdev)+group(basic)+ru:2" =
      ["us", "ru"] := by
  refine ⟨parseShortNames_eq_loop text, ?_, by decide⟩
  exact parseShortNamesLoop_tokens text.toList _ 0 [] _ [] (parseShortNames_eq_loop text 0)
    List.Forall₂.nil List.Pairwise.nil (by simp)

/-- C4, counterexample.  The text `pc+us+INET(evdev)+Group(basic)` gives the
tokens `us`, `INET` and `Group`: the last two equal `inet` and `group` up to
letter case and are returned all the same. -/
theorem denylist_is_case_sensitive :
    KeyboardModelPrivate.parseShortNames "pc+us+INET(evdev)+Group(basic)" =
      ["us", "INET", "Group"] ∧
    equalsIgnoreCase "INET" "inet" = true ∧ equalsIgnoreCase "Group" "group" = true := by
  decide

/-- C4, amended.  For every text, `parseShortNames` excludes the two names of
the list as they are written: no token returned is `inet` or `group`.  The
test is exact, so a match in other letter case is kept: `+Inet+GROUP+inet`
gives `Inet`, `GROUP`. -/
theorem denylist_excluded_exactly (text : String) :
    "inet" ∉ KeyboardModelPrivate.parseShortNames text ∧
    "group" ∉ KeyboardModelPrivate.parseShortNames text ∧
    KeyboardModelPrivate.parseShortNames "+Inet+GROUP+inet" = ["Inet", "GROUP"] := by
  have h := parseShortNamesLoop_not_listed text.toList _ 0 [] _ (parseShortNames_eq_loop text 0)
    (by simp)
  refine ⟨fun hin => h _ hin (by decide), fun hin => h _ hin (by decide), by decide⟩

/-! ## Initialisation: the constructor case by case -/

theorem constructor_unusable (svc : XkbService) (hc : svc.xcb_connect = false) :
    KeyboardModelPrivate.KeyboardModelPrivate svc = none := by
  simp [KeyboardModelPrivate.KeyboardModelPrivate, connect_unusable _ svc hc,
    KeyboardModelPrivate.initLedMap, hc]

theorem constructor_handshake_failed (svc : XkbService) (hc : svc.xcb_connect = true)
    (he : svc.use_extension_error ≠ none) :
    KeyboardModelPrivate.KeyboardModelPrivate svc =
      some ({ conn := true, enabled := false }, [InitStep.connect]) := by
  simp [KeyboardModelPrivate.KeyboardModelPrivate, connect_handshake_failed _ svc hc he]

theorem constructor_indicators_failed (svc : XkbService) (hc : svc.xcb_connect = true)
    (he : svc.use_extension_error = none) (hi : svc.indicator_names = none) :
    KeyboardModelPrivate.KeyboardModelPrivate svc =
      some ({ conn := true, enabled := false }, [InitStep.connect, InitStep.initLedMap]) := by
  simp [KeyboardModelPrivate.KeyboardModelPrivate, connect_ok _ svc hc he,
    KeyboardModelPrivate.initLedMap, hc, hi]

theorem constructor_group_names_failed (svc : XkbService) (inds : List Nat)
    (hc : svc.xcb_connect = true) (he : svc.use_extension_error = none)
    (hi : svc.indicator_names = some inds) (hg : svc.group_names = none) :
    KeyboardModelPrivate.KeyboardModelPrivate svc = none := by
  have h1 : (initLedMapLoop svc inds 0 { conn := true }).enabled = true :=
    (initLedMapLoop_frame svc inds 0 { conn := true }).1
  simp [KeyboardModelPrivate.KeyboardModelPrivate, connect_ok _ svc hc he,
    initLedMap_ok _ svc inds hc hi, h1, KeyboardModelPrivate.initLayouts, hg]

/-- With the first three requests answered, the constructor calls all four
initialisers, and `initState` starts from an enabled model with both locks
off and layout index 0 that carries the catalog. -/
theorem constructor_through_layouts (svc : XkbService) (inds : List Nat)
    (names : GetNamesReply) (hc : svc.xcb_connect = true)
    (he : svc.use_extension_error = none) (hi : svc.indicator_names = some inds)
    (hg : svc.group_names = some names) :
    ∃ d₃ : KeyboardModelPrivate,
      (initLedMapLoop svc inds 0 { conn := true }).initLayouts svc = some d₃ ∧
      d₃.enabled = true ∧ d₃.numlock.enabled = false ∧ d₃.capslock.enabled = false ∧
      d₃.layout_id = 0 ∧
      KeyboardModelPrivate.KeyboardModelPrivate svc =
        some (d₃.initState svc,
          [InitStep.connect, InitStep.initLedMap, InitStep.initLayouts, InitStep.initState])
      := by
  have hf := initLedMapLoop_frame svc inds 0 { conn := true }
  refine ⟨_, by simp only [KeyboardModelPrivate.initLayouts, hg]; rfl, ?_, ?_, ?_, ?_, ?_⟩
  · simpa using hf.1
  · simpa using hf.2.1
  · simpa using hf.2.2.1
  · simpa using hf.2.2.2.1
  · simp [KeyboardModelPrivate.KeyboardModelPrivate, connect_ok _ svc hc he,
      initLedMap_ok _ svc inds hc hi, hf.1, KeyboardModelPrivate.initLayouts, hg]

theorem initLayouts_layouts (svc : XkbService) (d d₁ e e₁ : KeyboardModelPrivate)
    (hd : d.initLayouts svc = some d₁) (he : e.initLayouts svc = some e₁) :
    d₁.layouts = e₁.layouts := by
  unfold KeyboardModelPrivate.initLayouts at hd he
  cases hg : svc.group_names with
  | none => simp [hg] at hd
  | some reply =>
    simp only [hg, Option.some.injEq] at hd he
    rw [← hd, ← he]

theorem initState_failed (d : KeyboardModelPrivate) (svc : XkbService)
    (hs : svc.get_state = none) : d.initState svc = { d with enabled := false } := by
  simp [KeyboardModelPrivate.initState, hs]

/-! ## Accessors of a disabled model -/

/-- C11, counterexample.  On the sample server with the state request
answered by an error the constructor calls all four initialisers and returns
a disabled model whose `layouts()` has the three entries built before the
failure. -/
theorem disabled_model_keeps_catalog :
    (KeyboardModelPrivate.KeyboardModelPrivate snapshotFailure).map Prod.snd =
      some [InitStep.connect, InitStep.initLedMap, InitStep.initLayouts, InitStep.initState] ∧
    (KeyboardModel.KeyboardModel snapshotFailure).map
        (fun m => (m.enabled, m.numLockState, m.capsLockState, m.layouts)) =
      some (false, false, false,
        [Layout.mk "us" "English (US)", Layout.mk "ru" "Russian", Layout.mk "" "German"]) := by
  decide

/-- C11, amended.  Let the constructor return a model with `enabled()` false.
Then one of the four fatal errors occurred, and `numLockState()` and
`capsLockState()` are false.  If the connection, the handshake or the
indicator name request failed, `layouts()` is empty (a connection that
failed returns no model, so there this says nothing).  Otherwise the state
request failed after the catalog was built, and `layouts()` is that catalog,
with one entry per group of the reply. -/
theorem disabled_accessors (svc : XkbService) (m : KeyboardModel)
    (h : KeyboardModel.KeyboardModel svc = some m) (hd : m.enabled = false) :
    m.numLockState = false ∧ m.capsLockState = false ∧
    (svc.xcb_connect = false ∨ svc.use_extension_error ≠ none ∨
      svc.indicator_names = none ∨ svc.get_state = none) ∧
    ((svc.xcb_connect = false ∨ svc.use_extension_error ≠ none ∨
        svc.indicator_names = none) → m.layouts = []) ∧
    (svc.xcb_connect = true → svc.use_extension_error = none →
      svc.indicator_names ≠ none →
      svc.get_state = none ∧
      ∃ reply, svc.group_names = some reply ∧ m.layouts.length = reply.groups.length ∧
        ∀ d d₁ : KeyboardModelPrivate, d.initLayouts svc = some d₁ →
          m.layouts = d₁.layouts) := by
  unfold KeyboardModel.KeyboardModel at h
  have hc : svc.xcb_connect = true := by
    cases hx : svc.xcb_connect
    · rw [constructor_unusable svc hx] at h
      cases h
    · rfl
  by_cases he : svc.use_extension_error = none
  swap
  · -- the handshake failed
    rw [constructor_handshake_failed svc hc he] at h
    simp only [Option.some.injEq] at h
    subst h
    exact ⟨rfl, rfl, Or.inr (Or.inl he), fun _ => rfl, fun _ he' => absurd he' he⟩
  · cases hi : svc.indicator_names with
    | none =>
      rw [constructor_indicators_failed svc hc he hi] at h
      simp only [Option.some.injEq] at h
      subst h
      exact ⟨rfl, rfl, Or.inr (Or.inr (Or.inl rfl)), fun _ => rfl,
        fun _ _ hne => absurd rfl hne⟩
    | some inds =>
      cases hg : svc.group_names with
      | none =>
        rw [constructor_group_names_failed svc inds hc he hi hg] at h
        cases h
      | some names =>
        obtain ⟨d₃, hd₃, hen, hnum, hcaps, _, hk⟩ :=
          constructor_through_layouts svc inds names hc he hi hg
        rw [hk] at h
        simp only [Option.some.injEq] at h
        subst h
        cases hs : svc.get_state with
        | some reply =>
          exfalso
          simp [KeyboardModel.enabled, KeyboardModelPrivate.initState, hs, hen] at hd
        | none =>
          have hst := initState_failed d₃ svc hs
          refine ⟨?_, ?_, Or.inr (Or.inr (Or.inr rfl)), ?_, ?_⟩
          · simp [KeyboardModel.numLockState, hst, hnum]
          · simp [KeyboardModel.capsLockState, hst, hcaps]
          · intro hfail
            rcases hfail with h1 | h1 | h1
            · rw [hc] at h1; cases h1
            · exact absurd he h1
            · cases h1
          · intro _ _ _
            refine ⟨rfl, names, rfl, ?_, ?_⟩
            · have : d₃.layouts.length = names.groups.length := by
                simp only [KeyboardModelPrivate.initLayouts, hg, Option.some.injEq] at hd₃
                rw [← hd₃]
                simp
              simpa [KeyboardModel.layouts, hst] using this
            · intro d d₁ hdd
              have := initLayouts_layouts svc _ d₃ d d₁ hd₃ hdd
              simpa [KeyboardModel.layouts, hst] using this

/-- C11, amended, on the sample server whose state request fails: the model
is disabled, both locks read false and the catalog has its three entries. -/
theorem disabled_accessors_witness :
    KeyboardModel.KeyboardModel snapshotFailure =
      some ⟨{ enabled := false, numlock := { mask := 1 }, capslock := { mask := 2 },
              layouts := [Layout.mk "us" "English (US)", Layout.mk "ru" "Russian",
                Layout.mk "" "German"], conn := true }⟩ ∧
    (⟨{ enabled := false, numlock := { mask := 1 }, capslock := { mask := 2 },
        layouts := [Layout.mk "us" "English (US)", Layout.mk "ru" "Russian",
          Layout.mk "" "German"], conn := true }⟩ : KeyboardModel).layouts.length = 3 ∧
    snapshotFailure.get_state = none :=
  have hk : KeyboardModel.KeyboardModel snapshotFailure =
      some ⟨{ enabled := false, numlock := { mask := 1 }, capslock := { mask := 2 },
              layouts := [Layout.mk "us" "English (US)", Layout.mk "ru" "Russian",
                Layout.mk "" "German"], conn := true }⟩ := by decide
  have h := (disabled_accessors snapshotFailure _ hk rfl).2.2.2.2 rfl rfl (by decide)
  ⟨hk, rfl, h.1⟩

/-! ## Setters: the model they return -/

theorem setNumLockState_model (m : KeyboardModel) (v : Bool) (error : Option Nat) :
    (m.setNumLockState v error).1 =
      { d := { m.d with numlock := { m.d.numlock with enabled := v } } } := by
  by_cases h : v = m.numLockState
  · rw [setNumLockState_same m v error h]
    subst h
    rfl
  · rw [setNumLockState_changed m v error h]

theorem setCapsLockState_model (m : KeyboardModel) (v : Bool) (error : Option Nat) :
    (m.setCapsLockState v error).1 =
      { d := { m.d with capslock := { m.d.capslock with enabled := v } } } := by
  by_cases h : v = m.capsLockState
  · rw [setCapsLockState_same m v error h]
    subst h
    rfl
  · rw [setCapsLockState_changed m v error h]

theorem setCurrentLayout_model (m : KeyboardModel) (id : Int) (error : Option Nat) :
    (m.setCurrentLayout id error).1 = { d := { m.d with layout_id := id } } := by
  by_cases h : id = m.currentLayout
  · rw [setCurrentLayout_same m id error h]
    subst h
    rfl
  · rw [setCurrentLayout_changed m id error h]

/-! ## Num Lock upon start -/

/-- C12.  In the start-up block of the greeter: with `enabled()` true and the
policy `NUM_SET_ON`, `setNumLockState(true)` is called and `numLockState()`
is true afterwards; with `enabled()` true and `NUM_SET_OFF`,
`setNumLockState(false)` is called and `numLockState()` is false afterwards;
with the policy `NUM_NONE`, or with `enabled()` false, `setNumLockState` is
not called, nothing is sent or emitted and the model is the one the block
started with. -/
theorem numlock_upon_start (m : KeyboardModel) (numlock : Configuration.NumState)
    (error : Option Nat) :
    (m.enabled = true → numlock = Configuration.NumState.NUM_SET_ON →
      (GreeterApp.setNumlockUponStart m numlock error).keyboard.numLockState = true ∧
      (GreeterApp.setNumlockUponStart m numlock error).calls = [true]) ∧
    (m.enabled = true → numlock = Configuration.NumState.NUM_SET_OFF →
      (GreeterApp.setNumlockUponStart m numlock error).keyboard.numLockState = false ∧
      (GreeterApp.setNumlockUponStart m numlock error).calls = [false]) ∧
    (numlock = Configuration.NumState.NUM_NONE ∨ m.enabled = false →
      (GreeterApp.setNumlockUponStart m numlock error).calls = [] ∧
      (GreeterApp.setNumlockUponStart m numlock error).events = [] ∧
      (GreeterApp.setNumlockUponStart m numlock error).keyboard = m) := by
  refine ⟨?_, ?_, ?_⟩
  · intro hen hon
    subst hon
    simp [GreeterApp.setNumlockUponStart, hen, setNumLockState_model,
      KeyboardModel.numLockState]
  · intro hen hoff
    subst hoff
    simp [GreeterApp.setNumlockUponStart, hen, setNumLockState_model,
      KeyboardModel.numLockState]
  · intro h
    rcases h with h | h
    · subst h
      by_cases hen : m.enabled = true <;> simp [GreeterApp.setNumlockUponStart, hen]
    · simp [GreeterApp.setNumlockUponStart, h]

/-- C12 on the sample model, which is enabled with Num Lock off: the policy
`NUM_SET_ON` turns it on with one request and one signal. -/
theorem numlock_upon_start_witness :
    sampleModel.enabled = true ∧
    (GreeterApp.setNumlockUponStart sampleModel Configuration.NumState.NUM_SET_ON
      none).keyboard.numLockState = true ∧
    (GreeterApp.setNumlockUponStart sampleModel Configuration.NumState.NUM_SET_ON none).calls
      = [true] ∧
    (GreeterApp.setNumlockUponStart sampleModel Configuration.NumState.NUM_SET_ON none).events
      = [Event.latchLockState 256 3 1 1 0 0 0 0, Event.numLockStateChanged] :=
  have h := (numlock_upon_start sampleModel Configuration.NumState.NUM_SET_ON none).1 rfl rfl
  ⟨rfl, h.1, h.2, by decide⟩

/-! ## The layout setter -/

/-- C13, counterexample.  On the sample model `setCurrentLayout(300)` makes
`currentLayout()` equal to 300, and the request it sends carries the group
44, the byte the `uint8_t` parameter receives, not 300. -/
theorem layout_group_is_narrowed :
    sampleModel.enabled = true ∧ (300 : Int) ≠ sampleModel.currentLayout ∧
    (sampleModel.setCurrentLayout 300 none).1.currentLayout = 300 ∧
    (sampleModel.setCurrentLayout 300 none).2 =
      [Event.latchLockState 256 3 0 1 44 0 0 0, Event.currentLayoutChanged] := by
  decide

/-- C13, amended.  On an enabled model, `setCurrentLayout(id)` with `id`
different from `currentLayout()` makes `currentLayout()` equal to `id` and
leaves both locks and both masks alone.  Its events are those of
`updateState` on the model it returns followed by `currentLayoutChanged`, the
shape the events of the two lock setters have with their own signal; the one
latch/lock request among them carries `id` reduced modulo 256 as the group,
which is `id` itself when `id` lies in 0..255, and the affected locks and
lock values computed from the masks and locks the model had before the call.
The private `setLayout`, which is not called, returns its object unchanged. -/
theorem setCurrentLayout_selects (m : KeyboardModel) (id : Int) (error : Option Nat)
    (hen : m.enabled = true) (hid : id ≠ m.currentLayout) :
    (m.setCurrentLayout id error).1.currentLayout = id ∧
    (m.setCurrentLayout id error).1.numLockState = m.numLockState ∧
    (m.setCurrentLayout id error).1.capsLockState = m.capsLockState ∧
    (m.setCurrentLayout id error).1.d.numlock.mask = m.d.numlock.mask ∧
    (m.setCurrentLayout id error).1.d.capslock.mask = m.d.capslock.mask ∧
    (m.setCurrentLayout id error).2 =
      (m.setCurrentLayout id error).1.d.updateState error ++ [Event.currentLayoutChanged] ∧
    (∀ v : Bool, v ≠ m.numLockState →
      (m.setNumLockState v error).2 =
        (m.setNumLockState v error).1.d.updateState error ++ [Event.numLockStateChanged]) ∧
    (∀ v : Bool, v ≠ m.capsLockState →
      (m.setCapsLockState v error).2 =
        (m.setCapsLockState v error).1.d.updateState error ++ [Event.capsLockStateChanged]) ∧
    (m.setCurrentLayout id error).2.filter Event.isCommand =
      [Event.latchLockState XCB_XKB_ID_USE_CORE_KBD
        (m.d.numlock.mask ||| m.d.capslock.mask)
        ((if m.numLockState then m.d.numlock.mask else 0) |||
         (if m.capsLockState then m.d.capslock.mask else 0))
        1 (toUInt8 id) 0 0 0] ∧
    (0 ≤ id → id < 256 → (toUInt8 id : Int) = id) ∧
    m.d.setLayout id = m.d := by
  refine ⟨?_, ?_, ?_, ?_, ?_, ?_, ?_, ?_, ?_, toUInt8_of_byte id, rfl⟩
  · rw [setCurrentLayout_model]; rfl
  · rw [setCurrentLayout_model]; rfl
  · rw [setCurrentLayout_model]; rfl
  · rw [setCurrentLayout_model]
  · rw [setCurrentLayout_model]
  · rw [setCurrentLayout_changed m id error hid]
  · intro v hv
    rw [setNumLockState_changed m v error hv]
  · intro v hv
    rw [setCapsLockState_changed m v error hv]
  · rw [setCurrentLayout_changed m id error hid]
    simp [List.filter_append, updateState_commands, Event.isCommand,
      KeyboardModel.numLockState, KeyboardModel.capsLockState]

/-- C13, amended, on the sample model (group 0, masks `0x01` and `0x02`,
locks off): selecting layout 2 sends affected locks 3, lock values 0 and
group 2. -/
theorem setCurrentLayout_selects_witness :
    sampleModel.enabled = true ∧ (2 : Int) ≠ sampleModel.currentLayout ∧
    (sampleModel.setCurrentLayout 2 none).1.currentLayout = 2 ∧
    (sampleModel.setCurrentLayout 2 none).2 =
      [Event.latchLockState 256 3 0 1 2 0 0 0, Event.currentLayoutChanged] ∧
    (toUInt8 2 : Int) = 2 :=
  have h := setCurrentLayout_selects sampleModel 2 none rfl (by decide)
  ⟨rfl, by decide, h.1, by decide, h.2.2.2.2.2.2.2.2.2.1 (by decide) (by decide)⟩

/-! ## Sequences of setter calls -/

theorem call_frame (m : KeyboardModel) (c : SetterCall) :
    (m.call c).1.d.numlock.mask = m.d.numlock.mask ∧
    (m.call c).1.d.capslock.mask = m.d.capslock.mask ∧
    (m.call c).1.d.layouts = m.d.layouts ∧
    (m.call c).1.d.enabled = m.d.enabled := by
  cases c with
  | setNumLockState state error =>
    simp [KeyboardModel.call, setNumLockState_model]
  | setCapsLockState state error =>
    simp [KeyboardModel.call, setCapsLockState_model]
  | setCurrentLayout id error =>
    simp [KeyboardModel.call, setCurrentLayout_model]

theorem callAll_frame (m : KeyboardModel) (calls : List SetterCall) :
    (m.callAll calls).1.d.numlock.mask = m.d.numlock.mask ∧
    (m.callAll calls).1.d.capslock.mask = m.d.capslock.mask ∧
    (m.callAll calls).1.d.layouts = m.d.layouts ∧
    (m.callAll calls).1.d.enabled = m.d.enabled := by
  induction calls generalizing m with
  | nil => exact ⟨rfl, rfl, rfl, rfl⟩
  | cons c cs ih =>
    have h1 := call_frame m c
    have h2 := ih (m.call c).1
    simp only [KeyboardModel.callAll]
    exact ⟨h2.1.trans h1.1, h2.2.1.trans h1.2.1, h2.2.2.1.trans h1.2.2.1,
      h2.2.2.2.trans h1.2.2.2⟩

/-- C14.  After any finite sequence of calls of the three setters, whatever
the replies to their requests, both masks, the layout catalog and the flag
`enabled` are what they were before the first call; in particular a disabled
model stays disabled.  A single call returns the model it was given with at
most one field replaced: the Num Lock flag for `setNumLockState`, the Caps
Lock flag for `setCapsLockState`, the layout index for `setCurrentLayout`. -/
theorem setters_frame (m : KeyboardModel) (calls : List SetterCall) :
    ((m.callAll calls).1.d.numlock.mask = m.d.numlock.mask ∧
     (m.callAll calls).1.d.capslock.mask = m.d.capslock.mask ∧
     (m.callAll calls).1.layouts = m.layouts ∧
     (m.callAll calls).1.enabled = m.enabled) ∧
    (m.enabled = false → (m.callAll calls).1.enabled = false) ∧
    (∀ (v : Bool) (e : Option Nat),
      (m.setNumLockState v e).1.d =
        { m.d with numlock :=
            { m.d.numlock with enabled := (m.setNumLockState v e).1.numLockState } }) ∧
    (∀ (v : Bool) (e : Option Nat),
      (m.setCapsLockState v e).1.d =
        { m.d with capslock :=
            { m.d.capslock with enabled := (m.setCapsLockState v e).1.capsLockState } }) ∧
    (∀ (id : Int) (e : Option Nat),
      (m.setCurrentLayout id e).1.d =
        { m.d with layout_id := (m.setCurrentLayout id e).1.currentLayout }) := by
  have hf := callAll_frame m calls
  refine ⟨⟨hf.1, hf.2.1, hf.2.2.1, hf.2.2.2⟩, ?_, ?_, ?_, ?_⟩
  · intro hd
    simp only [KeyboardModel.enabled] at hd ⊢
    rw [hf.2.2.2, hd]
  · intro v e
    rw [setNumLockState_model]; rfl
  · intro v e
    rw [setCapsLockState_model]; rfl
  · intro id e
    rw [setCurrentLayout_model]; rfl

/-- C14 on the model left by a refused handshake: after three calls, one of
them rejected, the model is still disabled. -/
theorem setters_frame_witness :
    (KeyboardModel.mk disabledPrivate).enabled = false ∧
    ((KeyboardModel.mk disabledPrivate).callAll
      [SetterCall.setNumLockState true none, SetterCall.setCapsLockState true (some 2),
       SetterCall.setCurrentLayout 1 none]).1.enabled = false :=
  ⟨rfl, (setters_frame (KeyboardModel.mk disabledPrivate) _).2.1 rfl⟩

/-! ## Failed group name request -/

/-- C15, the code at the failing input.  When the group name request is
answered with an error, `initLayouts` does not return: the error is never
seen and the null reply is read.  So it is on the sample server with that
request failing, for the constructor and for `initLayouts` on any object. -/
theorem group_names_failure_unhandled :
    groupNamesFailure.group_names = none ∧
    (∀ d : KeyboardModelPrivate, d.initLayouts groupNamesFailure = none) ∧
    KeyboardModelPrivate.KeyboardModelPrivate groupNamesFailure = none ∧
    KeyboardModel.KeyboardModel groupNamesFailure = none := by
  refine ⟨rfl, fun d => rfl, by decide, by decide⟩

/-! ## Qt version -/

theorem shl32_of_small (x n : Nat) (h : x * 2 ^ n < 2 ^ 31) :
    shl32 (x : Int) n = ((x * 2 ^ n : Nat) : Int) := by
  unfold shl32
  have h0 : ((x : Int) * 2 ^ n) = ((x * 2 ^ n : Nat) : Int) := by push_cast; rfl
  rw [h0]
  generalize x * 2 ^ n = y at h
  rw [Int.bmod_def]
  norm_num at h ⊢
  omega

theorem pack_bytes (major minor patch : Nat) (hm : minor < 256) (hp : patch < 256) :
    major * 65536 ||| minor * 256 ||| patch = major * 65536 + minor * 256 + patch := by
  have h1 : major * 65536 ||| minor * 256 = major * 65536 + minor * 256 := by
    have := Nat.mul_add_lt_is_or (i := 16) (b := minor * 256) (by norm_num; omega) major
    rw [Nat.mul_comm] at this
    norm_num at this
    exact this.symm
  have h2 : (major * 65536 + minor * 256) ||| patch = major * 65536 + minor * 256 + patch := by
    have := Nat.mul_add_lt_is_or (i := 8) (b := patch) (by norm_num; omega)
      (major * 256 + minor)
    have e : 2 ^ 8 * (major * 256 + minor) = major * 65536 + minor * 256 := by ring
    rw [e] at this
    exact this.symm
  rw [h1, h2]

theorem packedVersion_bytes (major minor patch : Nat) (hM : major < 32768) (hm : minor < 256)
    (hp : patch < 256) :
    packedVersion major minor patch = ((major * 65536 + minor * 256 + patch : Nat) : Int) := by
  unfold packedVersion
  rw [shl32_of_small major 16 (by norm_num; omega), shl32_of_small minor 8 (by norm_num; omega)]
  show ((((major * 2 ^ 16 ||| minor * 2 ^ 8) ||| patch : Nat)) : Int) = _
  norm_num
  exact_mod_cast pack_bytes major minor patch hm hp

theorem QT_VERSION_CHECK_bytes (major minor patch : Nat) (hm : minor < 256)
    (hp : patch < 256) :
    QT_VERSION_CHECK major minor patch = ((major * 65536 + minor * 256 + patch : Nat) : Int) := by
  unfold QT_VERSION_CHECK
  rw [Nat.shiftLeft_eq, Nat.shiftLeft_eq]
  norm_num
  exact_mod_cast pack_bytes major minor patch hm hp
/-- C16.  For every conversion `toInt` and every version string, the value
of `qtVersion()` is 0 or 1: 0 when splitting at the dots gives fewer than
three parts, and otherwise 1 or 0 according to whether one of
`major << 16`, `minor << 8`, `patch` is non-zero.  It is not the packed
number: for every version whose major number is at least 1 (and below
`2^15`) and whose minor and patch numbers are bytes, the value is 1 while
the packed number is `QT_VERSION_CHECK(major, minor, patch)`, at least
`0x010000`; in general the two agree only when the packed number is itself
0 or 1.  The test `qtVersion() >= QT_VERSION_CHECK(5, 1, 0)`, whose right
side is `0x050100`, is false for every version string, so `show` never widens
the view.  For `5.1.0` the value is 1 and the packed number `0x050100`. -/
theorem qtVersion_is_boolean (toInt : String → Option Int) (version : String) :
    ((qtVersion toInt version).1 = 0 ∨ (qtVersion toInt version).1 = 1) ∧
    (((QString_split '.' version.toList).map String.mk).length < 3 →
      (qtVersion toInt version).1 = 0) ∧
    (3 ≤ ((QString_split '.' version.toList).map String.mk).length →
      (qtVersion toInt version).1 =
        if (shl32 ((toInt (((QString_split '.' version.toList).map String.mk).getD 0
                "")).getD 0) 16 != 0 ||
            shl32 ((toInt (((QString_split '.' version.toList).map String.mk).getD 1
                "")).getD 0) 8 != 0 ||
            (toInt (((QString_split '.' version.toList).map String.mk).getD 2
                "")).getD 0 != 0) then 1 else 0) ∧
    (∀ major minor patch : Nat,
      3 ≤ ((QString_split '.' version.toList).map String.mk).length →
      toInt (((QString_split '.' version.toList).map String.mk).getD 0 "") =
        some (major : Int) →
      toInt (((QString_split '.' version.toList).map String.mk).getD 1 "") =
        some (minor : Int) →
      toInt (((QString_split '.' version.toList).map String.mk).getD 2 "") =
        some (patch : Int) →
      1 ≤ major → major < 32768 → minor < 256 → patch < 256 →
      (qtVersion toInt version).1 = 1 ∧
      packedVersion major minor patch = QT_VERSION_CHECK major minor patch ∧
      65536 ≤ packedVersion major minor patch ∧
      (qtVersion toInt version).1 ≠ packedVersion major minor patch) ∧
    (∀ major minor patch : Int,
      (qtVersion toInt version).1 = packedVersion major minor patch →
      packedVersion major minor patch = 0 ∨ packedVersion major minor patch = 1) ∧
    QT_VERSION_CHECK 5 1 0 = 0x050100 ∧
    qtVersionAtLeast51 toInt version = false ∧
    (∀ width : Int, GreeterApp.showWidth toInt version width = width) ∧
    (qtVersion decimalToInt "5.1.0" = (1, false) ∧
     packedVersion 5 1 0 = 0x050100 ∧
     qtVersion decimalToInt "5.15.2" = (1, false) ∧
     qtVersion decimalToInt "5.1" = (0, true)) := by
  have h01 : (qtVersion toInt version).1 = 0 ∨ (qtVersion toInt version).1 = 1 := by
    unfold qtVersion
    simp only []
    split_ifs <;> simp
  have hguard : qtVersionAtLeast51 toInt version = false := by
    have hc : QT_VERSION_CHECK 5 1 0 = 327936 := by decide
    unfold qtVersionAtLeast51
    rw [hc]
    rcases h01 with h | h <;> rw [h] <;> decide
  have h3 : 3 ≤ ((QString_split '.' version.toList).map String.mk).length →
      (qtVersion toInt version).1 =
        if (shl32 ((toInt (((QString_split '.' version.toList).map String.mk).getD 0
                "")).getD 0) 16 != 0 ||
            shl32 ((toInt (((QString_split '.' version.toList).map String.mk).getD 1
                "")).getD 0) 8 != 0 ||
            (toInt (((QString_split '.' version.toList).map String.mk).getD 2
                "")).getD 0 != 0) then 1 else 0 := by
    intro hge
    have : ((QString_split '.' version.toList).map String.mk).length ≥ 3 := hge
    simp only [qtVersion, if_pos this]
  refine ⟨h01, ?_, h3, ?_, ?_, by decide, hguard, ?_, by decide, by decide, by decide,
    by decide⟩
  · intro hlt
    have : ¬ ((QString_split '.' version.toList).map String.mk).length ≥ 3 := by omega
    simp only [qtVersion, if_neg this]
  · intro major minor patch hge h0 h1 h2 hM1 hM hm hp
    have hval : (qtVersion toInt version).1 = 1 := by
      rw [h3 hge, h0, h1, h2]
      have hs : shl32 (major : Int) 16 = ((major * 2 ^ 16 : Nat) : Int) :=
        shl32_of_small major 16 (by norm_num; omega)
      have hne : (shl32 (major : Int) 16 != 0) = true := by
        rw [hs]
        simp
        omega
      simp [hne]
    have hpk := packedVersion_bytes major minor patch hM hm hp
    refine ⟨hval, ?_, ?_, ?_⟩
    · rw [hpk, QT_VERSION_CHECK_bytes major minor patch hm hp]
    · rw [hpk]
      have : 65536 ≤ major * 65536 + minor * 256 + patch := by omega
      exact_mod_cast this
    · rw [hval, hpk]
      have : 1 ≠ major * 65536 + minor * 256 + patch := by omega
      exact_mod_cast this
  · intro major minor patch heq
    rw [← heq]
    exact h01
  · intro width
    simp [GreeterApp.showWidth, hguard]

/-- C16 with the decimal conversion on `5.1.0`: three parts, value 1, packed
number `QT_VERSION_CHECK(5, 1, 0)`, test false. -/
theorem qtVersion_is_boolean_witness :
    3 ≤ ((QString_split '.' "5.1.0".toList).map String.mk).length ∧
    (qtVersion decimalToInt "5.1.0").1 = 1 ∧
    packedVersion 5 1 0 = QT_VERSION_CHECK 5 1 0 ∧
    (qtVersion decimalToInt "5.1.0").1 ≠ packedVersion 5 1 0 ∧
    qtVersionAtLeast51 decimalToInt "5.1.0" = false :=
  have h := qtVersion_is_boolean decimalToInt "5.1.0"
  have hv := h.2.2.2.1 5 1 0 (by decide) (by decide) (by decide) (by decide) (by decide)
    (by decide) (by decide) (by decide)
  ⟨by decide, hv.1, hv.2.1, hv.2.2.2, h.2.2.2.2.2.2.1⟩

end SDDM
